import Mathlib

/-!
COS: crash-resilient output capture and log persistence.

A shallow embedding of `cos.h` (the `COS` session class and `CrashInfo`) and of the
crash callback `handleApplicationCrash` of `cosec.cpp`, POSIX build (`_WIN32` undefined).

* Text is a `String`; one Lean `Char` stands for one C++ `char`.
* `long long` values are `Int`; C++ `/` and `%` truncate toward zero (`Int.tdiv`, `Int.tmod`).
* Everything the process asks of its surroundings (clock, time formatting, image path,
  `backtrace`, whether a file opens, `fork`) is answered by an `Env`.
-/

namespace Cos

/-! ## Duration rendering (`snprintf` with `%02lld`) -/

/-- Rendering of one `%02lld` conversion: decimal digits, a leading `-` for negative values,
zero-padded on the left to a minimum field width of two. -/
def fmt02lld (v : Int) : List Char :=
  if v < 0 then
    '-' :: Nat.toDigits 10 v.natAbs
  else
    let ds := Nat.toDigits 10 v.toNat
    if ds.length < 2 then '0' :: ds else ds

/-- Full expansion of the format `"%02lld:%02lld:%02lld:%02lld"`. -/
def fmtDuration (hours minutes seconds centiseconds : Int) : List Char :=
  fmt02lld hours ++ ':' :: (fmt02lld minutes ++ ':' :: (fmt02lld seconds ++ ':' ::
    fmt02lld centiseconds))

/-- Effect of `snprintf(buffer, size, ...)` followed by reading the buffer as a C string:
at most `size - 1` characters of the expansion are kept. -/
def snprintf (size : Nat) (expansion : List Char) : String :=
  String.mk (expansion.take (size - 1))

/-- The crash record handed to the callback (`struct CrashInfo`). -/
structure CrashInfo where
  signalName : String
  signalNumber : Int
  stackTrace : String
  timestamp : String
  logPath : String
  logContent : String
  executableName : String
  startTime : String
  sessionDurationMs : Int
  deriving DecidableEq, Repr

/-- Member `CrashInfo::getFormattedDuration`: four fields through a 12-byte buffer. -/
def CrashInfo.getFormattedDuration (info : CrashInfo) : String :=
  let hours := info.sessionDurationMs.tdiv (1000 * 60 * 60)
  let minutes := (info.sessionDurationMs.tdiv (1000 * 60)).tmod 60
  let seconds := (info.sessionDurationMs.tdiv 1000).tmod 60
  let centiseconds := (info.sessionDurationMs.tdiv 10).tmod 100
  snprintf 12 (fmtDuration hours minutes seconds centiseconds)

/-- The spec's rendering of one field: exactly two decimal digits, zero-padded. -/
def twoDigits (n : Nat) : String :=
  String.mk [Nat.digitChar (n / 10), Nat.digitChar (n % 10)]

/-- The spec's `HH:MM:SS:CS` text of a duration in milliseconds. -/
def specDuration (ms : Nat) : String :=
  twoDigits (ms / 3600000) ++ ":" ++ twoDigits (ms / 60000 % 60) ++ ":" ++
    twoDigits (ms / 1000 % 60) ++ ":" ++ twoDigits (ms / 10 % 100)

/-- A crash record carrying only a duration, for exercising the renderer. -/
def CrashInfo.ofDuration (ms : Int) : CrashInfo :=
  { signalName := "", signalNumber := 0, stackTrace := "", timestamp := "", logPath := "",
    logContent := "", executableName := "", startTime := "", sessionDurationMs := ms }

/-! ## Environment -/

/-- Answers of the surroundings. Clock, stack and fork queries are numbered in the order the
process issues them (`World.envReads` counts them). -/
structure Env where
  /-- Reading of `std::chrono::system_clock::now()` at a query, in clock ticks (nanoseconds). -/
  clock : Nat → Int
  /-- Local-time rendering `%Y/%m/%d %H:%M:%S` of a clock reading. -/
  stampForLog : Int → String
  /-- Local-time rendering `%Y-%m-%d_%H-%M-%S` of a clock reading. -/
  stampForFilename : Int → String
  /-- Target of `readlink("/proc/self/exe")`, or `none` when it fails. -/
  exePath : Option String
  /-- Descriptions of the frames on the call stack at a query, innermost first, as
  `backtrace_symbols` renders them; `none` when it returns a null pointer. -/
  backtraceSymbols : Nat → Option (List String)
  /-- Whether `std::ofstream` manages to open the given path for writing. -/
  canOpen : String → Bool
  /-- Return value of `fork()` at a query, as seen by the process being modelled. -/
  forkResult : Nat → Int
  /-- Whether `execl("/proc/self/exe", ...)` replaces the image. -/
  execSucceeds : Bool

/-- Ticks of `system_clock` per millisecond (`duration_cast<milliseconds>` divides by this). -/
def ticksPerMs : Int := 1000000

/-- Signal numbers of `<csignal>` on Linux. -/
def SIGINT : Int := 2
def SIGQUIT : Int := 3
def SIGILL : Int := 4
def SIGTRAP : Int := 5
def SIGABRT : Int := 6
def SIGBUS : Int := 7
def SIGFPE : Int := 8
def SIGSEGV : Int := 11
def SIGTERM : Int := 15

/-- The separator `irs()` printed around stack traces. -/
def irs : String := "\n\n▒▒▒█   ▒▒▒█   ▒▒▒█   █▒▒█   █▒▒▒   █▒▒▒   █▒▒▒   █▒▒▒\n\n"

/-! ## Stream buffers, sessions and the process state -/

/-- A `std::streambuf` reachable from `std::cout` / `std::cerr`. -/
inductive StreamBuf where
  /-- The buffer `std::cout` starts with: the real standard output. -/
  | stdoutFile : StreamBuf
  /-- The buffer `std::cerr` starts with: the real standard error. -/
  | stderrFile : StreamBuf
  /-- The buffer `capturedOutput.rdbuf()` of the session object at address `owner`. -/
  | capture (owner : Nat) : StreamBuf
  /-- A `TeeStreambuf` with its two targets. -/
  | tee (console captureBuffer : StreamBuf) : StreamBuf
  deriving DecidableEq, Repr, Inhabited

/-- Data members of a `COS` object. `crashCallback` holds the identity of the stored callable,
`none` for an empty `std::function`. -/
structure COS where
  capturedOutput : String
  originalCoutBuffer : StreamBuf
  originalCerrBuffer : StreamBuf
  logPath : String
  logSaved : Bool
  executableName : String
  startTime : String
  stackTrace : String
  crashCallback : Option Nat
  startTimePoint : Int
  coutBuffer : StreamBuf
  cerrBuffer : StreamBuf
  deriving DecidableEq, Repr, Inhabited

/-- Whether the process is still running. -/
inductive ProcStatus where
  | running : ProcStatus
  /-- The call `std::exit(code)` or `_exit(code)` was made. -/
  | exited (code : Int) : ProcStatus
  /-- The call to `execl` replaced the process image. -/
  | replaced : ProcStatus
  /-- The default action of a signal ended the process. -/
  | killed (sigNum : Int) : ProcStatus
  /-- The behaviour is undefined from here on (`delete` of an object that `new` did not
  create; with glibc, `free` aborts the process). -/
  | undefined : ProcStatus
  deriving DecidableEq, Repr, Inhabited

/-- The two intercepted output streams. -/
inductive Stream where
  | cout : Stream
  | cerr : Stream
  deriving DecidableEq, Repr

/-- State of the process as far as `cos.h` and the crash callback touch it. -/
structure World where
  /-- Object memory: the `COS` image stored at each address. -/
  objects : Nat → COS
  /-- Addresses holding a constructed, not yet destroyed session. -/
  live : Nat → Bool
  /-- The static `COS::globalInstance`. -/
  globalInstance : Option Nat
  /-- The value of `std::cout.rdbuf()`. -/
  coutBuf : StreamBuf
  /-- The value of `std::cerr.rdbuf()`. -/
  cerrBuf : StreamBuf
  /-- Everything that reached the real standard output. -/
  stdoutText : String
  /-- Everything that reached the real standard error. -/
  stderrText : String
  /-- Completed log-file writes `(path, text)`, oldest first; each one truncates the file. -/
  fileWrites : List (String × String)
  /-- Signals whose disposition is `COS::signalHandler`. -/
  handled : List Int
  /-- Number of clock, stack and fork queries issued so far. -/
  envReads : Nat
  /-- The flag `g_crashHandlerActive` of `cosec.cpp`. -/
  g_crashHandlerActive : Bool
  status : ProcStatus
  /-- Addresses of objects with automatic storage, such as `COS logger;` in `main`
  (`cosec.cpp`): storage that `new` did not hand out. -/
  automatic : Nat → Bool
  /-- The signal mask: signals whose delivery is held back. A handler installed with
  `std::signal` runs with its own signal added (glibc, BSD semantics). -/
  blocked : List Int
  /-- Signals raised while blocked, waiting for the mask to let them through. -/
  pending : List Int

/-- The state of a process at startup: no session, untouched streams, all handlers at
their defaults, an empty signal mask, and no address set aside for automatic objects. -/
def World.start : World :=
  { objects := fun _ => default, live := fun _ => false, globalInstance := none,
    coutBuf := .stdoutFile, cerrBuf := .stderrFile, stdoutText := "", stderrText := "",
    fileWrites := [], handled := [], envReads := 0, g_crashHandlerActive := false,
    status := .running, automatic := fun _ => false, blocked := [], pending := [] }

/-- Store an object image at an address. -/
def World.setObject (w : World) (addr : Nat) (o : COS) : World :=
  { w with objects := Function.update w.objects addr o }

/-- One clock, stack or fork query has been answered. -/
def World.tick (w : World) : World :=
  { w with envReads := w.envReads + 1 }

/-- Point `std::cout` and `std::cerr` at the given buffers (`rdbuf(...)` on both). -/
def World.setBuffers (w : World) (coutBuf cerrBuf : StreamBuf) : World :=
  { w with coutBuf := coutBuf, cerrBuf := cerrBuf }

/-- An opened file receives its text and is closed. -/
def World.appendFile (w : World) (path text : String) : World :=
  { w with fileWrites := w.fileWrites ++ [(path, text)] }

/-- Assign the `stackTrace` member of the object at an address. -/
def World.setStackTrace (w : World) (addr : Nat) (trace : String) : World :=
  w.setObject addr { w.objects addr with stackTrace := trace }

/-- Current content of a file: the text of the latest write to it. -/
def World.readFile (w : World) (path : String) : Option String :=
  (w.fileWrites.reverse.find? (fun e => e.1 == path)).map (fun e => e.2)

/-- The calls `std::exit` and `_exit`. -/
def World.exit (w : World) (code : Int) : World :=
  { w with status := .exited code }

/-- Block write into a buffer (`sputn`). For a `TeeStreambuf` this is `xsputn`: first the
console target, then the capture target (the trailing `pubsync` moves no data). -/
def StreamBuf.sputn : StreamBuf → String → World → World
  | .stdoutFile, s, w => { w with stdoutText := w.stdoutText ++ s }
  | .stderrFile, s, w => { w with stderrText := w.stderrText ++ s }
  | .capture owner, s, w =>
      w.setObject owner
        { w.objects owner with capturedOutput := (w.objects owner).capturedOutput ++ s }
  | .tee console captureBuffer, s, w => captureBuffer.sputn s (console.sputn s w)

/-- Single-character write into a buffer (`sputc`). A `TeeStreambuf` has no put area, so this
is `overflow` on a character: first the console target, then the capture target. -/
def StreamBuf.sputc : StreamBuf → Char → World → World
  | .stdoutFile, c, w => { w with stdoutText := w.stdoutText ++ String.singleton c }
  | .stderrFile, c, w => { w with stderrText := w.stderrText ++ String.singleton c }
  | .capture owner, c, w =>
      w.setObject owner
        { w.objects owner with
          capturedOutput := (w.objects owner).capturedOutput ++ String.singleton c }
  | .tee console captureBuffer, c, w => captureBuffer.sputc c (console.sputc c w)

/-- Member `TeeStreambuf::overflow(int c)`: `none` is `EOF`, which writes nothing. -/
def TeeStreambuf.overflow (console captureBuffer : StreamBuf) (c : Option Char) (w : World) :
    World :=
  match c with
  | none => w
  | some ch => (StreamBuf.tee console captureBuffer).sputc ch w

/-- The buffer a stream currently writes to. -/
def World.rdbuf (w : World) : Stream → StreamBuf
  | .cout => w.coutBuf
  | .cerr => w.cerrBuf

/-- The insertion `stream << text` (also `stream.write`): one block write to the current buffer. -/
def World.write (w : World) (st : Stream) (s : String) : World :=
  (w.rdbuf st).sputn s w

/-- The call `stream.put(c)`: one single-character write to the current buffer. -/
def World.put (w : World) (st : Stream) (c : Char) : World :=
  (w.rdbuf st).sputc c w

/-- The insertion `stream << std::endl`: a newline through `put`, then a flush that moves no data. -/
def World.endl (w : World) (st : Stream) : World :=
  w.put st '\n'

/-! ## Write sequences -/

/-- One write issued to standard output or standard error. -/
inductive WriteOp where
  /-- A single-character write (`put`). -/
  | char (st : Stream) (c : Char) : WriteOp
  /-- A block write (`<<` of text, `write`). -/
  | block (st : Stream) (s : String) : WriteOp
  deriving DecidableEq, Repr

/-- Issue one write. -/
def WriteOp.run : WriteOp → World → World
  | .char st c, w => w.put st c
  | .block st s, w => w.write st s

/-- The stream one write is issued to. -/
def WriteOp.stream : WriteOp → Stream
  | .char st _ => st
  | .block st _ => st

/-- The characters one write carries. -/
def WriteOp.bytes : WriteOp → String
  | .char _ c => String.singleton c
  | .block _ s => s

/-- Issue a sequence of writes, first to last. -/
def runWrites (ops : List WriteOp) (w : World) : World :=
  ops.foldl (fun v op => op.run v) w

/-- Whether a buffer forwards, directly or through tees, into the capture buffer of the
object at `owner`. -/
def StreamBuf.mentions (owner : Nat) : StreamBuf → Bool
  | .stdoutFile => false
  | .stderrFile => false
  | .capture o => o == owner
  | .tee console captureBuffer => console.mentions owner || captureBuffer.mentions owner

/-! ## The `COS` class -/

/-- Member `COS::getTimestampForFilename` applied to a clock reading. -/
def COS.getTimestampForFilename (env : Env) (now : Int) : String :=
  env.stampForFilename now

/-- Member `COS::getTimestampForLog` applied to a clock reading. -/
def COS.getTimestampForLog (env : Env) (now : Int) : String :=
  env.stampForLog now

/-- Member `COS::getExecutableNameInternal`: the part of the image path after its last `/`, the
whole path when it has none, and `"app"` when the path cannot be read. -/
def COS.getExecutableNameInternal (env : Env) : String :=
  match env.exePath with
  | some fullPath => String.mk (fullPath.data.reverse.takeWhile (fun c => c != '/')).reverse
  | none => "app"

/-- Member `COS::getTempDir`: the log path, from the executable name and a clock reading. -/
def COS.getTempDir (env : Env) (executableName : String) (now : Int) : String :=
  "/tmp/" ++ executableName ++ "_" ++ COS.getTimestampForFilename env now ++ ".log"

/-- Upper bound on captured frames. -/
def MAX_FRAMES : Nat := 64

/-- Member `COS::captureStackTrace` at the given query: one line per frame, at most `MAX_FRAMES`. -/
def COS.captureStackTrace (env : Env) (query : Nat) : String :=
  match env.backtraceSymbols query with
  | some symbols => String.join ((symbols.take MAX_FRAMES).map (fun sym => sym ++ "\n"))
  | none => ""

/-- The signals `COS::setupSignalHandlers` intercepts. -/
def interceptedSignals : List Int :=
  [SIGTERM, SIGINT, SIGABRT, SIGFPE, SIGILL, SIGSEGV, SIGBUS, SIGQUIT, SIGTRAP]

/-- Member `COS::setupSignalHandlers`: route every intercepted signal to `signalHandler`. -/
def COS.setupSignalHandlers (w : World) : World :=
  { w with handled := interceptedSignals.foldl (fun l sig => l.insert sig) w.handled }

/-- Member `COS::getSignalName`. -/
def COS.getSignalName (sigNum : Int) : String :=
  if sigNum = SIGTERM then "SIGTERM"
  else if sigNum = SIGINT then "SIGINT"
  else if sigNum = SIGABRT then "SIGABRT"
  else if sigNum = SIGFPE then "SIGFPE"
  else if sigNum = SIGILL then "SIGILL"
  else if sigNum = SIGSEGV then "SIGSEGV"
  else if sigNum = SIGBUS then "SIGBUS"
  else if sigNum = SIGQUIT then "SIGQUIT"
  else if sigNum = SIGTRAP then "SIGTRAP"
  else "Signal " ++ toString sigNum

/-- Elapsed whole milliseconds between two clock readings
(`duration_cast<milliseconds>(end - start).count()`). -/
def elapsedMs (startTimePoint endTimePoint : Int) : Int :=
  (endTimePoint - startTimePoint).tdiv ticksPerMs

/-- The `Duration:` text computed inside `COS::saveLog`: four fields through a 32-byte
buffer. -/
def COS.durationBuffer (durationMs : Int) : String :=
  let hours := durationMs.tdiv (1000 * 60 * 60)
  let minutes := (durationMs.tdiv (1000 * 60)).tmod 60
  let seconds := (durationMs.tdiv 1000).tmod 60
  let centiseconds := (durationMs.tdiv 10).tmod 100
  snprintf 32 (fmtDuration hours minutes seconds centiseconds)

/-- The metadata block `COS::saveLog` writes at the top of the file, up to and including
the `CAPTURED LOGS` rule. -/
def COS.logHeader (executableName startTime exitReason exitStamp duration : String) : String :=
  "--------------------------------------------- DATA ----------------------------------------------\n"
    ++ "App: " ++ executableName ++ "\n"
    ++ "Start: " ++ startTime ++ "\n"
    ++ "Exit: " ++ exitReason ++ " at " ++ exitStamp ++ "\n"
    ++ "Duration: " ++ duration ++ " (HH:MM:SS:CS)\n\n"
    ++ "----------------------------------------- CAPTURED LOGS -----------------------------------------\n"

/-- The stack-trace section `COS::saveLog` appends when the trace is not empty. -/
def COS.traceSection (stackTrace : String) : String :=
  if stackTrace = "" then "" else " THE SIGNAL FAULT STACK TRACE :" ++ irs ++ stackTrace ++ irs

/-- Everything `COS::saveLog` streams into the opened file. -/
def COS.logFileText (s : COS) (exitReason exitStamp duration : String) : String :=
  COS.logHeader s.executableName s.startTime exitReason exitStamp duration
    ++ s.capturedOutput ++ COS.traceSection s.stackTrace

/-- Member `COS::saveLog(exitReason)` on the object at `this`. -/
def COS.saveLog (env : Env) (this : Nat) (exitReason : String) (w : World) : World :=
  let s := w.objects this
  if s.logSaved then w
  else
    let s1 : COS := { s with logSaved := true }
    let w1 := (w.setObject this s1).setBuffers s.originalCoutBuffer s.originalCerrBuffer
    let durationMs := elapsedMs s.startTimePoint (env.clock w1.envReads)
    let w2 := w1.tick
    if env.canOpen s.logPath then
      let exitStamp := COS.getTimestampForLog env (env.clock w2.envReads)
      w2.tick.appendFile s.logPath
        (COS.logFileText s1 exitReason exitStamp (COS.durationBuffer durationMs))
    else w2

/-- The constructor `COS::COS()` building a session at address `this`. -/
def COS.ctor (env : Env) (this : Nat) (w : World) : World :=
  let executableName := COS.getExecutableNameInternal env
  let logPath := COS.getTempDir env executableName (env.clock w.envReads)
  let startTimePoint := env.clock (w.envReads + 1)
  let startTime := COS.getTimestampForLog env (env.clock (w.envReads + 2))
  let obj : COS :=
    { capturedOutput := "", originalCoutBuffer := w.coutBuf, originalCerrBuffer := w.cerrBuf,
      logPath := logPath, logSaved := false, executableName := executableName,
      startTime := startTime, stackTrace := "", crashCallback := none,
      startTimePoint := startTimePoint,
      coutBuffer := .tee w.coutBuf (.capture this),
      cerrBuffer := .tee w.cerrBuf (.capture this) }
  let w1 : World :=
    { w.setObject this obj with
      live := Function.update w.live this true,
      coutBuf := obj.coutBuffer, cerrBuf := obj.cerrBuffer,
      globalInstance := some this, envReads := w.envReads + 3 }
  let w2 := COS.setupSignalHandlers w1
  ((w2.write .cout "COS: ").write .cout logPath).endl .cout

/-- The destructor `COS::~COS()` of the session at address `this`. -/
def COS.dtor (env : Env) (this : Nat) (w : World) : World :=
  let w1 := if (w.objects this).logSaved then w else COS.saveLog env this "Normal exit" w
  let s := w1.objects this
  let w2 : World :=
    { w1 with coutBuf := s.originalCoutBuffer, cerrBuf := s.originalCerrBuffer }
  let w3 : World :=
    if w2.globalInstance = some this then { w2 with globalInstance := none } else w2
  { w3 with live := Function.update w3.live this false }

/-- Member `COS::setCrashCallback`. -/
def COS.setCrashCallback (this : Nat) (callback : Option Nat) (w : World) : World :=
  w.setObject this { w.objects this with crashCallback := callback }

/-- Member `COS::getExecutableName`. -/
def COS.getExecutableName (this : Nat) (w : World) : String := (w.objects this).executableName

/-- Member `COS::getLogPath`. -/
def COS.getLogPath (this : Nat) (w : World) : String := (w.objects this).logPath

/-- Member `COS::getStartTime`. -/
def COS.getStartTime (this : Nat) (w : World) : String := (w.objects this).startTime

/-- Member `COS::getStackTrace`. -/
def COS.getStackTrace (this : Nat) (w : World) : String := (w.objects this).stackTrace

/-- Member `COS::getLogContent`. -/
def COS.getLogContent (this : Nat) (w : World) : String := (w.objects this).capturedOutput

/-- Meaning of the callables a session may hold: what invoking the callable with the given
identity on a crash record does to the process. -/
abbrev Callbacks := Nat → CrashInfo → World → World

/-- First part of `COS::handleSignal`: the timestamp is read, the failure banner is printed,
the stack is captured into `stackTrace` and, when not empty, printed. -/
def COS.handleSignalBanner (env : Env) (this : Nat) (sigNum : Int) (w : World) : World :=
  let signalName := COS.getSignalName sigNum
  let w1 := w.tick
  let w2 := (((w1.write .cout "\n!!! A ").write .cout signalName).write .cout
    " SIGNAL FAILURE CAUGHT !!!").endl .cout
  let trace := COS.captureStackTrace env w2.envReads
  let w3 := (w2.setStackTrace this trace).tick
  if trace = "" then w3
  else (((w3.write .cout "\n The Crash Signal  Trace; ").write .cout irs).write .cout
    trace).write .cout irs

/-- The state in which `COS::handleSignal` reaches its final branch: banner printed, stack
captured and printed, `saveLog("Crashed: " + signalName)` done. -/
def COS.handleSignalCapture (env : Env) (this : Nat) (sigNum : Int) (w : World) : World :=
  COS.saveLog env this ("Crashed: " ++ COS.getSignalName sigNum)
    (COS.handleSignalBanner env this sigNum w)

/-- The `CrashInfo` that `COS::handleSignal` assembles in the state `w` reached after
`saveLog`, for a crash whose timestamp was read at query `stampQuery`. -/
def COS.crashInfo (env : Env) (this : Nat) (sigNum : Int) (stampQuery : Nat) (w : World) :
    CrashInfo :=
  let s := w.objects this
  { signalName := COS.getSignalName sigNum
    signalNumber := sigNum
    stackTrace := s.stackTrace
    timestamp := COS.getTimestampForLog env (env.clock stampQuery)
    logPath := s.logPath
    logContent := s.capturedOutput
    executableName := s.executableName
    startTime := s.startTime
    sessionDurationMs := elapsedMs s.startTimePoint (env.clock w.envReads) }

/-- Member `COS::handleSignal(sigNum)` on the object at `this`. -/
def COS.handleSignal (env : Env) (call : Callbacks) (this : Nat) (sigNum : Int) (w : World) :
    World :=
  let w5 := COS.handleSignalCapture env this sigNum w
  match (w5.objects this).crashCallback with
  | some f =>
      let info := COS.crashInfo env this sigNum w.envReads w5
      call f info w5.tick
  | none => w5.exit sigNum

/-- Member `COS::signalHandler(sigNum)`, the function registered with `std::signal`. -/
def COS.signalHandler (env : Env) (call : Callbacks) (sigNum : Int) (w : World) : World :=
  match w.globalInstance with
  | some g => COS.handleSignal env call g sigNum w
  | none => w

/-- Member `COS::Tri_term`. The expression `delete globalInstance` runs the destructor and
then hands the storage to `operator delete`, which is defined only for storage that `new`
handed out. -/
def COS.Tri_term (env : Env) (w : World) : World :=
  let w1 : World := { w with handled := w.handled.filter (fun sig => sig ∉ interceptedSignals) }
  match w1.globalInstance with
  | some g =>
      let w2 := COS.dtor env g w1
      if w.automatic g then { w2 with status := .undefined }
      else ({ w2 with globalInstance := none } : World).exit 0
  | none => w1.exit 0

/-- Member `COS::Tri_reset`. With `fork() == 0` the modelled process is the first child, and with a
second `fork() == 0` the grandchild that re-executes the image. -/
def COS.Tri_reset (env : Env) (w : World) : World :=
  let w1 :=
    match w.globalInstance with
    | some g => COS.saveLog env g "Application restart initiated" w
    | none => w
  let pid := env.forkResult w1.envReads
  let w2 := w1.tick
  if pid = 0 then
    let pid2 := env.forkResult w2.envReads
    let w3 := w2.tick
    if pid2 > 0 then w3.exit 0
    else if pid2 = 0 then
      if env.execSucceeds then { w3 with status := .replaced } else w3.exit 127
    else w3.exit 1
  else if pid > 0 then
    COS.Tri_term env w2
  else
    let w3 :=
      match w2.globalInstance with
      | some g => COS.saveLog env g "Failed to fork for restart" w2
      | none => w2
    COS.Tri_term env w3

/-! ## The crash callback of `cosec.cpp` -/

/-- What happens while the crash dialog of `handleApplicationCrash` is open. -/
inductive DialogScript where
  /-- The dialog closes and the callback reaches its final `std::exit(0)`. -/
  | finished : DialogScript
  /-- A signal is delivered to `COS::signalHandler` while the callback is still running. -/
  | signal (sigNum : Int) (rest : DialogScript) : DialogScript
  /-- The code running inside the callback raises a signal synchronously (`raise`). -/
  | raise (sigNum : Int) (rest : DialogScript) : DialogScript
  deriving DecidableEq, Repr

/-- The four lines `handleApplicationCrash` prints once it has passed its guard. -/
def crashAnnounceOps (crashInfo : CrashInfo) : List WriteOp :=
  [.block .cout "\n Crash handler was called.", .char .cout '\n',
    .block .cout "Signal: ", .block .cout crashInfo.signalName, .char .cout '\n',
    .block .cout "Time: ", .block .cout crashInfo.timestamp, .char .cout '\n',
    .block .cout "Log: ", .block .cout crashInfo.logPath, .char .cout '\n']

/-- Set the flag `g_crashHandlerActive`. -/
def World.setCrashHandlerActive (w : World) : World :=
  { w with g_crashHandlerActive := true }

/-- The callback `handleApplicationCrash(crashInfo)`, with the part from showing the dialog to the final
`std::exit(0)` given as `dialog`. -/
def handleApplicationCrashWith (dialog : World → World) (crashInfo : CrashInfo) (w : World) :
    World :=
  if w.g_crashHandlerActive then
    ((w.write .cerr "Recursive crash detected, terminated.").endl .cerr).exit
      crashInfo.signalNumber
  else
    dialog (runWrites (crashAnnounceOps crashInfo) w.setCrashHandlerActive)

/-- Add a signal to the signal mask. -/
def World.block (w : World) (sigNum : Int) : World :=
  { w with blocked := sigNum :: w.blocked }

/-- Control returns to the interrupted code only in a process that is still running. -/
def World.thenIfRunning (w : World) (next : World → World) : World :=
  match w.status with
  | .running => next w
  | _ => w

/-- A signal is raised in the process (`raise`, or the kernel sending it). A blocked signal
stays pending. Otherwise, if `COS::signalHandler` is installed for it, the handler runs with
this signal added to the mask, and the old mask is back once the handler returns (signals
left pending at that point are not followed further). Otherwise the default action
applies, which for the signals considered here (those `COS` intercepts) ends the
process. -/
def raiseSignal (env : Env) (call : Callbacks) (sigNum : Int) (w : World) : World :=
  if sigNum ∈ w.blocked then { w with pending := w.pending ++ [sigNum] }
  else if sigNum ∈ w.handled then
    (COS.signalHandler env call sigNum (w.block sigNum)).thenIfRunning
      (fun v => { v with blocked := w.blocked })
  else { w with status := .killed sigNum }

/-- The dialog phase of the callback: every scripted signal runs `COS::signalHandler` with
the same callback registered, directly when it is scripted as delivered and through
`raiseSignal` when it is scripted as raised; if the process survives that, the dialog goes
on. -/
def crashDialog (env : Env) : DialogScript → World → World
  | .finished, w => w.exit 0
  | .signal sigNum rest, w =>
      (COS.signalHandler env
        (fun _ => handleApplicationCrashWith (crashDialog env rest)) sigNum w).thenIfRunning
        (crashDialog env rest)
  | .raise sigNum rest, w =>
      (raiseSignal env
        (fun _ => handleApplicationCrashWith (crashDialog env rest)) sigNum w).thenIfRunning
        (crashDialog env rest)

/-- The callback `handleApplicationCrash`, run against a script of what happens during its dialog. -/
def handleApplicationCrash (env : Env) (script : DialogScript) (crashInfo : CrashInfo)
    (w : World) : World :=
  handleApplicationCrashWith (crashDialog env script) crashInfo w

/-- The callable table of the test program: every identity is `handleApplicationCrash`. -/
def appCallbacks (env : Env) (script : DialogScript) : Callbacks :=
  fun _ => handleApplicationCrash env script

/-- The session at `this` is attached: both streams currently write through a tee whose
capture side is this session's buffer and whose console side is the destination the session
remembered, which does not itself forward into this session's buffer. -/
def World.Attached (w : World) (this : Nat) : Prop :=
  w.coutBuf = .tee (w.objects this).originalCoutBuffer (.capture this) ∧
  (w.objects this).originalCoutBuffer.mentions this = false ∧
  w.cerrBuf = .tee (w.objects this).originalCerrBuffer (.capture this) ∧
  (w.objects this).originalCerrBuffer.mentions this = false

/-- The session data right after `COS::COS()` has installed the tees, before it prints the
announcement line. -/
def COS.fresh (env : Env) (this : Nat) (w : World) : COS :=
  { capturedOutput := "", originalCoutBuffer := w.coutBuf, originalCerrBuffer := w.cerrBuf,
    logPath := COS.getTempDir env (COS.getExecutableNameInternal env) (env.clock w.envReads),
    logSaved := false, executableName := COS.getExecutableNameInternal env,
    startTime := COS.getTimestampForLog env (env.clock (w.envReads + 2)), stackTrace := "",
    crashCallback := none, startTimePoint := env.clock (w.envReads + 1),
    coutBuffer := .tee w.coutBuf (.capture this),
    cerrBuffer := .tee w.cerrBuf (.capture this) }

/-- Two object images that differ at most in the captured text. -/
def COS.SameButCapture (a b : COS) : Prop :=
  b = { a with capturedOutput := b.capturedOutput }

/-- A text contains another as a contiguous piece. -/
def Contains (text piece : String) : Prop :=
  ∃ before after : String, text = before ++ piece ++ after

/-- The second state differs from the first at most in what was printed: the console
texts and the captured texts of objects. -/
def World.OnlyOutput (w v : World) : Prop :=
  v.coutBuf = w.coutBuf ∧ v.cerrBuf = w.cerrBuf ∧ v.globalInstance = w.globalInstance ∧
  v.fileWrites = w.fileWrites ∧ v.envReads = w.envReads ∧ v.status = w.status ∧
  v.live = w.live ∧ v.handled = w.handled ∧
  v.g_crashHandlerActive = w.g_crashHandlerActive ∧
  ∀ o, COS.SameButCapture (w.objects o) (v.objects o)

/-- The failure banner `COS::handleSignal` prints for a signal. -/
def COS.banner (sigNum : Int) : String :=
  "\n!!! A " ++ COS.getSignalName sigNum ++ " SIGNAL FAILURE CAUGHT !!!" ++ "\n"

/-- The stack-trace text `COS::handleSignal` prints after the banner when the trace is not
empty. -/
def COS.tracePrint (trace : String) : String :=
  if trace = "" then "" else "\n The Crash Signal  Trace; " ++ irs ++ trace ++ irs

/-- The writes that print the failure banner. -/
def COS.bannerOps (sigNum : Int) : List WriteOp :=
  [.block .cout "\n!!! A ", .block .cout (COS.getSignalName sigNum),
    .block .cout " SIGNAL FAILURE CAUGHT !!!", .char .cout '\n']

/-- The writes that print a captured stack trace; none when it is empty. -/
def COS.traceOps (trace : String) : List WriteOp :=
  if trace = "" then []
  else [.block .cout "\n The Crash Signal  Trace; ", .block .cout irs, .block .cout trace,
    .block .cout irs]

/-- The state in which the callback `handleApplicationCrash`, invoked by `handleSignal` for
a first signal `s1`, opens its dialog: capture phase done, guard passed, four lines
printed. -/
def inCallback (env : Env) (this : Nat) (s1 : Int) (w : World) : World :=
  runWrites
    (crashAnnounceOps
      (COS.crashInfo env this s1 w.envReads (COS.handleSignalCapture env this s1 w)))
    (COS.handleSignalCapture env this s1 w).tick.setCrashHandlerActive

/-- Whether a list of characters begins with the given piece. -/
def startsWith : List Char → List Char → Bool
  | [], _ => true
  | _ :: _, [] => false
  | p :: ps, c :: cs => p == c && startsWith ps cs

/-- Whether the piece occurs somewhere in a list of characters. -/
def occursIn (piece : List Char) : List Char → Bool
  | [] => startsWith piece []
  | c :: cs => startsWith piece (c :: cs) || occursIn piece cs

/-- Sample surroundings: the clock advances 250 ms per query, the image is `/usr/bin/demo`,
two frames are on the stack (the second named after the query), every file opens and `fork` succeeds in the parent. -/
def Env.sample : Env :=
  { clock := fun n => 250000000 * (n : Int)
    stampForLog := fun t => "day " ++ toString (t / 1000000)
    stampForFilename := fun t => "at" ++ toString (t / 1000000)
    exePath := some "/usr/bin/demo"
    backtraceSymbols := fun n => some ["f0", "query " ++ toString n]
    canOpen := fun _ => true
    forkResult := fun _ => 7
    execSucceeds := true }

/-- Sample writes: a block to standard output, a character and a block to standard error. -/
def sampleWrites : List WriteOp :=
  [.block .cout "ab", .char .cerr 'c', .block .cerr "d"]

/-- The sample session: built at address 1 in a fresh process, in storage that `new` handed
out, then the sample writes. -/
def World.sample : World :=
  runWrites sampleWrites (COS.ctor Env.sample 1 World.start)

/-- The sample session with a crash callback registered. -/
def World.sampleWithCallback : World :=
  COS.setCrashCallback 1 (some 0) World.sample

/-- Sample surroundings in which `fork` fails: as `Env.sample`, but every `fork()` returns
`-1`. -/
def Env.sampleForkFails : Env :=
  { Env.sample with forkResult := fun _ => -1 }

/-! ## The timer text of the crash dialog (`cosec.cpp`) -/

/-- Decimal text of a `qlonglong`, as `QString::number` gives it. -/
def numberText (a : Int) : List Char :=
  if a < 0 then '-' :: Nat.toDigits 10 a.natAbs else Nat.toDigits 10 a.toNat

/-- Text that `QString::arg(a, fieldWidth, 10, fillChar)` puts in place of a marker: the
decimal text of `a`, filled on the left up to a positive field width. -/
def qstringArg (a : Int) (fieldWidth : Nat) (fillChar : Char) : List Char :=
  List.replicate (fieldWidth - (numberText a).length) fillChar ++ numberText a

/-- The string `timerDisplay` built in `COSEC::createDetailsPage` from
`crashInfo.sessionDurationMs`: the pattern `%1:%2:%3:%4` with its four markers filled. -/
def COSEC.timerDisplay (totalMs : Int) : String :=
  let hours := totalMs.tdiv (1000 * 60 * 60)
  let minutes := (totalMs.tdiv (1000 * 60)).tmod 60
  let seconds := (totalMs.tdiv 1000).tmod 60
  let centiseconds := (totalMs.tdiv 10).tmod 100
  String.mk (qstringArg hours 2 '0' ++ ':' :: (qstringArg minutes 2 '0' ++ ':' ::
    (qstringArg seconds 2 '0' ++ ':' :: qstringArg centiseconds 2 '0')))

/-! ## Session lifetimes -/

/-- A construction or a destruction of a session object at an address. -/
inductive LifeOp where
  | construct (addr : Nat) : LifeOp
  | destroy (addr : Nat) : LifeOp
  deriving DecidableEq, Repr

/-- Perform one construction or destruction. -/
def LifeOp.run (env : Env) : LifeOp → World → World
  | .construct addr, w => COS.ctor env addr w
  | .destroy addr, w => COS.dtor env addr w

/-- Perform constructions and destructions, first to last. -/
def runLife (env : Env) (ops : List LifeOp) (w : World) : World :=
  ops.foldl (fun v op => op.run env v) w

/-- Strictly sequential use, starting with the session `cur` alive (or none): a session is
constructed only while none is alive, and only the session alive is destroyed. Gives the
session alive at the end, or `none` when the sequence breaks the discipline. -/
def sequentialFrom : Option Nat → List LifeOp → Option (Option Nat)
  | cur, [] => some cur
  | none, .construct addr :: rest => sequentialFrom (some addr) rest
  | some a, .destroy addr :: rest => if a = addr then sequentialFrom none rest else none
  | none, .destroy _ :: _ => none
  | some _, .construct _ :: _ => none

/-- The singleton reference and the set of live sessions both are exactly `cur`. -/
def World.Tracks (w : World) (cur : Option Nat) : Prop :=
  w.globalInstance = cur ∧ ∀ a, w.live a = true ↔ cur = some a

/-- Whenever a session is alive the singleton reference points to it (so at most one is
alive), and the reference never points to a session that is not alive. -/
def World.SingletonInvariant (w : World) : Prop :=
  (∀ a, w.live a = true → w.globalInstance = some a) ∧
  (∀ a, w.globalInstance = some a → w.live a = true)

/-- Sample lifetimes: a first session is built and destroyed, then a second one is built. -/
def sampleLife : List LifeOp :=
  [.construct 1, .destroy 1, .construct 2]

/-- The characters a write carries for the given stream: its characters when it is issued
to that stream, nothing otherwise. -/
def WriteOp.bytesOn (st : Stream) (op : WriteOp) : String :=
  if op.stream = st then op.bytes else ""

/-- Sample surroundings in which the system clock is set back: as `Env.sample`, but the
first five readings are one hour ahead of the later ones. -/
def Env.sampleClockBack : Env :=
  { Env.sample with
    clock := fun n => if n < 5 then 3600000000000 + 250000000 * (n : Int)
      else 250000000 * (n : Int) }

/-- The sample session with a callback, built under `Env.sampleClockBack`. -/
def World.sampleClockBack : World :=
  COS.setCrashCallback 1 (some 0)
    (runWrites sampleWrites (COS.ctor Env.sampleClockBack 1 World.start))

/-- The process of `cosec.cpp` after the first lines of `main`: `COS logger;` is an object
with automatic storage (here at address 1) and `handleApplicationCrash` is registered. -/
def World.mainSession : World :=
  COS.setCrashCallback 1 (some 0)
    (COS.ctor Env.sample 1 { World.start with automatic := fun a => a == 1 })

/-! ## Theorems -/

theorem fmt02lld_of_lt_hundred (n : Nat) (h : n < 100) :
    fmt02lld (n : Int) = [Nat.digitChar (n / 10), Nat.digitChar (n % 10)] := by
  interval_cases n <;> rfl

/-- On a natural number of milliseconds the four fields are the natural quotients. -/
theorem fmtDuration_fields (n : Nat) :
    fmtDuration ((n : Int).tdiv (1000 * 60 * 60)) (((n : Int).tdiv (1000 * 60)).tmod 60)
        (((n : Int).tdiv 1000).tmod 60) (((n : Int).tdiv 10).tmod 100)
      = fmtDuration ((n / 3600000 : Nat) : Int) ((n / 60000 % 60 : Nat) : Int)
          ((n / 1000 % 60 : Nat) : Int) ((n / 10 % 100 : Nat) : Int) := by
  have hn : (0 : Int) ≤ (n : Int) := Int.ofNat_nonneg n
  have d1 : (n : Int).tdiv (1000 * 60 * 60) = ((n / 3600000 : Nat) : Int) := by
    rw [Int.tdiv_eq_ediv hn (by norm_num)]; omega
  have d2 : (n : Int).tdiv (1000 * 60) = ((n / 60000 : Nat) : Int) := by
    rw [Int.tdiv_eq_ediv hn (by norm_num)]; omega
  have d3 : (n : Int).tdiv 1000 = ((n / 1000 : Nat) : Int) := by
    rw [Int.tdiv_eq_ediv hn (by norm_num)]; omega
  have d4 : (n : Int).tdiv 10 = ((n / 10 : Nat) : Int) := by
    rw [Int.tdiv_eq_ediv hn (by norm_num)]; omega
  have m (a k : Nat) : ((a : Int)).tmod (k : Int) = ((a % k : Nat) : Int) := by
    rw [Int.tmod_eq_emod (Int.ofNat_nonneg a) (Int.ofNat_nonneg k)]; omega
  rw [d1, d2, d3, d4]
  have m2 := m (n / 60000) 60
  have m3 := m (n / 1000) 60
  have m4 := m (n / 10) 100
  simp only [Nat.cast_ofNat] at m2 m3 m4
  rw [m2, m3, m4]

/-- Below one hundred hours the expansion is the spec's eleven characters. -/
theorem fmtDuration_lt_hundred_hours (n : Nat) (h : n < 360000000) :
    String.mk (fmtDuration ((n / 3600000 : Nat) : Int) ((n / 60000 % 60 : Nat) : Int)
      ((n / 1000 % 60 : Nat) : Int) ((n / 10 % 100 : Nat) : Int)) = specDuration n := by
  have h1 : n / 3600000 < 100 := by omega
  have h2 : n / 60000 % 60 < 100 := by omega
  have h3 : n / 1000 % 60 < 100 := by omega
  have h4 : n / 10 % 100 < 100 := by omega
  unfold fmtDuration specDuration twoDigits
  rw [fmt02lld_of_lt_hundred _ h1, fmt02lld_of_lt_hundred _ h2, fmt02lld_of_lt_hundred _ h3,
    fmt02lld_of_lt_hundred _ h4]
  rfl

/-! ### Frame lemmas for buffer writes -/

theorem sputc_eq_sputn (b : StreamBuf) (c : Char) (w : World) :
    b.sputc c w = b.sputn (String.singleton c) w := by
  induction b generalizing w with
  | stdoutFile => rfl
  | stderrFile => rfl
  | capture o => rfl
  | tee console captureBuffer ih1 ih2 => simp only [StreamBuf.sputc, StreamBuf.sputn, ih1, ih2]

theorem sputn_frame (b : StreamBuf) (s : String) (w : World) :
    (b.sputn s w).coutBuf = w.coutBuf ∧ (b.sputn s w).cerrBuf = w.cerrBuf ∧
    (b.sputn s w).globalInstance = w.globalInstance ∧
    (b.sputn s w).fileWrites = w.fileWrites ∧ (b.sputn s w).envReads = w.envReads ∧
    (b.sputn s w).status = w.status ∧ (b.sputn s w).live = w.live ∧
    (b.sputn s w).handled = w.handled ∧
    (b.sputn s w).g_crashHandlerActive = w.g_crashHandlerActive := by
  induction b generalizing w with
  | stdoutFile => simp [StreamBuf.sputn]
  | stderrFile => simp [StreamBuf.sputn]
  | capture o => simp [StreamBuf.sputn, World.setObject]
  | tee console captureBuffer ih1 ih2 =>
    simp only [StreamBuf.sputn]
    have h1 := ih1 w
    have h2 := ih2 (console.sputn s w)
    refine ⟨?_, ?_, ?_, ?_, ?_, ?_, ?_, ?_, ?_⟩
    · rw [h2.1, h1.1]
    · rw [h2.2.1, h1.2.1]
    · rw [h2.2.2.1, h1.2.2.1]
    · rw [h2.2.2.2.1, h1.2.2.2.1]
    · rw [h2.2.2.2.2.1, h1.2.2.2.2.1]
    · rw [h2.2.2.2.2.2.1, h1.2.2.2.2.2.1]
    · rw [h2.2.2.2.2.2.2.1, h1.2.2.2.2.2.2.1]
    · rw [h2.2.2.2.2.2.2.2.1, h1.2.2.2.2.2.2.2.1]
    · rw [h2.2.2.2.2.2.2.2.2, h1.2.2.2.2.2.2.2.2]

/-- A buffer that does not forward into an object's capture leaves that object alone. -/
theorem sputn_objects_of_not_mentions (b : StreamBuf) (o : Nat) (s : String) (w : World)
    (h : b.mentions o = false) : (b.sputn s w).objects o = w.objects o := by
  induction b generalizing w with
  | stdoutFile => rfl
  | stderrFile => rfl
  | capture o2 =>
    simp only [StreamBuf.mentions, beq_eq_false_iff_ne, ne_eq] at h
    simp only [StreamBuf.sputn, World.setObject]
    exact Function.update_noteq (Ne.symm h) _ _
  | tee console captureBuffer ih1 ih2 =>
    simp only [StreamBuf.mentions, Bool.or_eq_false_iff] at h
    simp only [StreamBuf.sputn]
    rw [ih2 _ h.2, ih1 _ h.1]

/-- A write through a session's tee appends the text to that session's capture, once, and
changes nothing else of the object. -/
theorem sputn_tee_capture (console : StreamBuf) (o : Nat) (s : String) (w : World)
    (h : console.mentions o = false) :
    ((StreamBuf.tee console (.capture o)).sputn s w).objects o =
      { w.objects o with capturedOutput := (w.objects o).capturedOutput ++ s } := by
  simp only [StreamBuf.sputn, World.setObject, Function.update_same]
  rw [sputn_objects_of_not_mentions console o s w h]

/-! ### Writes on an attached session -/

theorem foldl_append_init (l : List String) (a : String) :
    List.foldl (fun r s => r ++ s) a l = a ++ List.foldl (fun r s => r ++ s) "" l := by
  induction l generalizing a with
  | nil => simp
  | cons x xs ih =>
    simp only [List.foldl_cons]
    rw [ih (a ++ x), ih ("" ++ x)]
    simp [String.append_assoc]

theorem join_cons (x : String) (xs : List String) :
    String.join (x :: xs) = x ++ String.join xs := by
  unfold String.join
  simp only [List.foldl_cons]
  rw [foldl_append_init]
  simp

theorem put_eq_write (w : World) (st : Stream) (c : Char) :
    w.put st c = w.write st (String.singleton c) :=
  sputc_eq_sputn _ c w

theorem endl_eq_write (w : World) (st : Stream) : w.endl st = w.write st "\n" :=
  sputc_eq_sputn _ '\n' w

theorem write_objects (w : World) (this : Nat) (st : Stream) (s : String)
    (h : w.Attached this) :
    (w.write st s).objects this =
      { w.objects this with capturedOutput := (w.objects this).capturedOutput ++ s } := by
  cases st
  · unfold World.write World.rdbuf
    rw [h.1]
    exact sputn_tee_capture _ _ _ _ h.2.1
  · unfold World.write World.rdbuf
    rw [h.2.2.1]
    exact sputn_tee_capture _ _ _ _ h.2.2.2

theorem write_frame (w : World) (st : Stream) (s : String) :
    (w.write st s).coutBuf = w.coutBuf ∧ (w.write st s).cerrBuf = w.cerrBuf ∧
    (w.write st s).globalInstance = w.globalInstance ∧
    (w.write st s).fileWrites = w.fileWrites ∧ (w.write st s).envReads = w.envReads ∧
    (w.write st s).status = w.status ∧ (w.write st s).live = w.live ∧
    (w.write st s).handled = w.handled ∧
    (w.write st s).g_crashHandlerActive = w.g_crashHandlerActive :=
  sputn_frame _ s w

theorem write_attached (w : World) (this : Nat) (st : Stream) (s : String)
    (h : w.Attached this) : (w.write st s).Attached this := by
  have ho := write_objects w this st s h
  have hf := write_frame w st s
  unfold World.Attached
  rw [ho, hf.1, hf.2.1]
  exact h

theorem runWrites_objects (ops : List WriteOp) (w : World) (this : Nat)
    (h : w.Attached this) :
    (runWrites ops w).objects this =
      { w.objects this with
        capturedOutput := (w.objects this).capturedOutput ++ String.join (ops.map WriteOp.bytes) }
    ∧ (runWrites ops w).Attached this := by
  induction ops generalizing w with
  | nil =>
    refine ⟨?_, h⟩
    simp [runWrites, String.join]
  | cons op rest ih =>
    have hrun : runWrites (op :: rest) w = runWrites rest (op.run w) := rfl
    have hop : op.run w = w.write op.stream op.bytes := by
      cases op with
      | char st c => exact put_eq_write w st c
      | block st t => rfl
    rw [hrun, hop]
    have h1 := write_objects w this op.stream op.bytes h
    have h2 := write_attached w this op.stream op.bytes h
    obtain ⟨ih1, ih2⟩ := ih _ h2
    refine ⟨?_, ih2⟩
    rw [ih1, h1]
    simp [join_cons, String.append_assoc]

/-! ### What writes can change in an object -/

theorem sameButCapture_refl (a : COS) : COS.SameButCapture a a := by
  cases a; rfl

theorem sameButCapture_trans {a b c : COS} (h1 : COS.SameButCapture a b)
    (h2 : COS.SameButCapture b c) : COS.SameButCapture a c := by
  unfold COS.SameButCapture at *
  rw [h2, h1]

theorem sameButCapture_fields {a b : COS} (h : COS.SameButCapture a b) :
    b.originalCoutBuffer = a.originalCoutBuffer ∧ b.originalCerrBuffer = a.originalCerrBuffer ∧
    b.logPath = a.logPath ∧ b.logSaved = a.logSaved ∧ b.executableName = a.executableName ∧
    b.startTime = a.startTime ∧ b.stackTrace = a.stackTrace ∧
    b.crashCallback = a.crashCallback ∧ b.startTimePoint = a.startTimePoint := by
  unfold COS.SameButCapture at h
  rw [h]
  exact ⟨rfl, rfl, rfl, rfl, rfl, rfl, rfl, rfl, rfl⟩

theorem sputn_sameButCapture (b : StreamBuf) (s : String) (w : World) (o : Nat) :
    COS.SameButCapture (w.objects o) ((b.sputn s w).objects o) := by
  induction b generalizing w with
  | stdoutFile => exact sameButCapture_refl _
  | stderrFile => exact sameButCapture_refl _
  | capture o2 =>
    simp only [StreamBuf.sputn, World.setObject]
    by_cases h : o = o2
    · subst h
      rw [Function.update_same]
      rfl
    · rw [Function.update_noteq h]
      exact sameButCapture_refl _
  | tee console captureBuffer ih1 ih2 =>
    simp only [StreamBuf.sputn]
    exact sameButCapture_trans (ih1 w) (ih2 _)

theorem write_sameButCapture (w : World) (st : Stream) (s : String) (o : Nat) :
    COS.SameButCapture (w.objects o) ((w.write st s).objects o) :=
  sputn_sameButCapture _ s w o

/-! ### Output-only steps -/

theorem onlyOutput_refl (w : World) : w.OnlyOutput w :=
  ⟨rfl, rfl, rfl, rfl, rfl, rfl, rfl, rfl, rfl, fun _ => sameButCapture_refl _⟩

theorem onlyOutput_trans {a b c : World} (h1 : a.OnlyOutput b) (h2 : b.OnlyOutput c) :
    a.OnlyOutput c := by
  obtain ⟨a1, a2, a3, a4, a5, a6, a7, a8, a9, a10⟩ := h1
  obtain ⟨b1, b2, b3, b4, b5, b6, b7, b8, b9, b10⟩ := h2
  exact ⟨b1.trans a1, b2.trans a2, b3.trans a3, b4.trans a4, b5.trans a5, b6.trans a6,
    b7.trans a7, b8.trans a8, b9.trans a9, fun o => sameButCapture_trans (a10 o) (b10 o)⟩

theorem write_onlyOutput (w : World) (st : Stream) (s : String) :
    w.OnlyOutput (w.write st s) := by
  obtain ⟨a1, a2, a3, a4, a5, a6, a7, a8, a9⟩ := write_frame w st s
  exact ⟨a1, a2, a3, a4, a5, a6, a7, a8, a9, fun o => write_sameButCapture w st s o⟩

theorem endl_onlyOutput (w : World) (st : Stream) : w.OnlyOutput (w.endl st) := by
  rw [endl_eq_write]; exact write_onlyOutput w st _

theorem runWrites_onlyOutput (ops : List WriteOp) (w : World) :
    w.OnlyOutput (runWrites ops w) := by
  induction ops generalizing w with
  | nil => exact onlyOutput_refl w
  | cons op rest ih =>
    have hop : op.run w = w.write op.stream op.bytes := by
      cases op with
      | char st c => exact put_eq_write w st c
      | block st t => rfl
    have hrun : runWrites (op :: rest) w = runWrites rest (op.run w) := rfl
    rw [hrun, hop]
    exact onlyOutput_trans (write_onlyOutput w _ _) (ih _)

/-! ### `saveLog` -/

theorem saveLog_of_saved (env : Env) (this : Nat) (r : String) (w : World)
    (h : (w.objects this).logSaved = true) : COS.saveLog env this r w = w := by
  simp [COS.saveLog, h]

theorem saveLog_logSaved (env : Env) (this : Nat) (r : String) (w : World) :
    ((COS.saveLog env this r w).objects this).logSaved = true := by
  by_cases h : (w.objects this).logSaved = true
  · rw [saveLog_of_saved env this r w h]; exact h
  · simp only [COS.saveLog, h]
    by_cases hopen : env.canOpen (w.objects this).logPath = true
    · simp [hopen, World.setObject, World.setBuffers, World.tick, World.appendFile]
    · simp [hopen, World.setObject, World.setBuffers, World.tick, World.appendFile]

/-- The entry an unsaved session writes when its file opens. -/
theorem saveLog_of_unsaved (env : Env) (this : Nat) (r : String) (w : World)
    (h : (w.objects this).logSaved = false) :
    (COS.saveLog env this r w).objects this = { w.objects this with logSaved := true } ∧
    (COS.saveLog env this r w).coutBuf = (w.objects this).originalCoutBuffer ∧
    (COS.saveLog env this r w).cerrBuf = (w.objects this).originalCerrBuffer ∧
    (COS.saveLog env this r w).fileWrites =
      (if env.canOpen (w.objects this).logPath then
        w.fileWrites ++ [((w.objects this).logPath,
          COS.logFileText { w.objects this with logSaved := true } r
            (COS.getTimestampForLog env (env.clock (w.envReads + 1)))
            (COS.durationBuffer
              (elapsedMs (w.objects this).startTimePoint (env.clock w.envReads))))]
      else w.fileWrites) := by
  by_cases hopen : env.canOpen (w.objects this).logPath = true
  · simp [COS.saveLog, h, hopen, World.setObject, World.setBuffers, World.tick, World.appendFile]
  · simp [COS.saveLog, h, hopen, World.setObject, World.setBuffers, World.tick, World.appendFile]

theorem saveLog_frame (env : Env) (this : Nat) (r : String) (w : World) :
    (COS.saveLog env this r w).globalInstance = w.globalInstance ∧
    (COS.saveLog env this r w).status = w.status ∧
    (COS.saveLog env this r w).g_crashHandlerActive = w.g_crashHandlerActive ∧
    (COS.saveLog env this r w).live = w.live ∧
    (COS.saveLog env this r w).handled = w.handled ∧
    (COS.saveLog env this r w).stdoutText = w.stdoutText ∧
    (COS.saveLog env this r w).stderrText = w.stderrText ∧
    ((COS.saveLog env this r w).objects this).capturedOutput =
      (w.objects this).capturedOutput ∧
    ((COS.saveLog env this r w).objects this).stackTrace = (w.objects this).stackTrace ∧
    ((COS.saveLog env this r w).objects this).crashCallback =
      (w.objects this).crashCallback ∧
    ((COS.saveLog env this r w).objects this).logPath = (w.objects this).logPath ∧
    ((COS.saveLog env this r w).objects this).executableName =
      (w.objects this).executableName ∧
    ((COS.saveLog env this r w).objects this).startTime = (w.objects this).startTime ∧
    ((COS.saveLog env this r w).objects this).startTimePoint =
      (w.objects this).startTimePoint := by
  by_cases h : (w.objects this).logSaved = true
  · rw [saveLog_of_saved env this r w h]
    exact ⟨rfl, rfl, rfl, rfl, rfl, rfl, rfl, rfl, rfl, rfl, rfl, rfl, rfl, rfl⟩
  · by_cases hopen : env.canOpen (w.objects this).logPath = true
    · simp [COS.saveLog, h, hopen, World.setObject, World.setBuffers, World.tick, World.appendFile]
    · simp [COS.saveLog, h, hopen, World.setObject, World.setBuffers, World.tick, World.appendFile]

theorem saveLog_saveLog (env : Env) (this : Nat) (r1 r2 : String) (w : World) :
    COS.saveLog env this r2 (COS.saveLog env this r1 w) = COS.saveLog env this r1 w :=
  saveLog_of_saved env this r2 _ (saveLog_logSaved env this r1 w)

/-! ### The capture phase of `handleSignal` -/

theorem handleSignalBanner_eq (env : Env) (this : Nat) (sigNum : Int) (w : World) :
    COS.handleSignalBanner env this sigNum w =
      runWrites (COS.traceOps (COS.captureStackTrace env (w.envReads + 1)))
        (((runWrites (COS.bannerOps sigNum) w.tick).setStackTrace this
          (COS.captureStackTrace env (w.envReads + 1))).tick) := by
  have he : (runWrites (COS.bannerOps sigNum) w.tick).envReads = w.envReads + 1 :=
    (runWrites_onlyOutput _ _).2.2.2.2.1
  have hdef : COS.handleSignalBanner env this sigNum w =
      if COS.captureStackTrace env (runWrites (COS.bannerOps sigNum) w.tick).envReads = ""
      then ((runWrites (COS.bannerOps sigNum) w.tick).setStackTrace this
        (COS.captureStackTrace env (runWrites (COS.bannerOps sigNum) w.tick).envReads)).tick
      else runWrites [.block .cout "\n The Crash Signal  Trace; ", .block .cout irs,
          .block .cout (COS.captureStackTrace env
            (runWrites (COS.bannerOps sigNum) w.tick).envReads), .block .cout irs]
        ((runWrites (COS.bannerOps sigNum) w.tick).setStackTrace this
          (COS.captureStackTrace env (runWrites (COS.bannerOps sigNum) w.tick).envReads)).tick :=
    rfl
  rw [hdef, he]
  by_cases ht : COS.captureStackTrace env (w.envReads + 1) = ""
  · rw [if_pos ht]
    simp only [COS.traceOps, ht, if_true]
    rfl
  · rw [if_neg ht]
    simp only [COS.traceOps, ht, if_false]

theorem tick_setStackTrace_onlyFields (w : World) (this : Nat) (trace : String) :
    ((w.setStackTrace this trace).tick).coutBuf = w.coutBuf ∧
    ((w.setStackTrace this trace).tick).cerrBuf = w.cerrBuf ∧
    ((w.setStackTrace this trace).tick).globalInstance = w.globalInstance ∧
    ((w.setStackTrace this trace).tick).fileWrites = w.fileWrites ∧
    ((w.setStackTrace this trace).tick).envReads = w.envReads + 1 ∧
    ((w.setStackTrace this trace).tick).status = w.status ∧
    ((w.setStackTrace this trace).tick).g_crashHandlerActive = w.g_crashHandlerActive ∧
    ((w.setStackTrace this trace).tick).objects this =
      { w.objects this with stackTrace := trace } := by
  simp [World.setStackTrace, World.tick, World.setObject]

theorem handleSignalBanner_frame (env : Env) (this : Nat) (sigNum : Int) (w : World) :
    (COS.handleSignalBanner env this sigNum w).coutBuf = w.coutBuf ∧
    (COS.handleSignalBanner env this sigNum w).cerrBuf = w.cerrBuf ∧
    (COS.handleSignalBanner env this sigNum w).globalInstance = w.globalInstance ∧
    (COS.handleSignalBanner env this sigNum w).fileWrites = w.fileWrites ∧
    (COS.handleSignalBanner env this sigNum w).envReads = w.envReads + 2 ∧
    (COS.handleSignalBanner env this sigNum w).status = w.status ∧
    (COS.handleSignalBanner env this sigNum w).g_crashHandlerActive =
      w.g_crashHandlerActive ∧
    ((COS.handleSignalBanner env this sigNum w).objects this).stackTrace =
      COS.captureStackTrace env (w.envReads + 1) ∧
    ((COS.handleSignalBanner env this sigNum w).objects this).logSaved =
      (w.objects this).logSaved ∧
    ((COS.handleSignalBanner env this sigNum w).objects this).crashCallback =
      (w.objects this).crashCallback ∧
    ((COS.handleSignalBanner env this sigNum w).objects this).logPath =
      (w.objects this).logPath ∧
    ((COS.handleSignalBanner env this sigNum w).objects this).executableName =
      (w.objects this).executableName ∧
    ((COS.handleSignalBanner env this sigNum w).objects this).startTime =
      (w.objects this).startTime ∧
    ((COS.handleSignalBanner env this sigNum w).objects this).startTimePoint =
      (w.objects this).startTimePoint ∧
    ((COS.handleSignalBanner env this sigNum w).objects this).originalCoutBuffer =
      (w.objects this).originalCoutBuffer ∧
    ((COS.handleSignalBanner env this sigNum w).objects this).originalCerrBuffer =
      (w.objects this).originalCerrBuffer := by
  rw [handleSignalBanner_eq]
  obtain ⟨a1, a2, a3, a4, a5, a6, -, -, a9, a10⟩ :=
    runWrites_onlyOutput (COS.bannerOps sigNum) w.tick
  obtain ⟨b1, b2, b3, b4, b5, b6, -, -, b9, b10⟩ :=
    runWrites_onlyOutput (COS.traceOps (COS.captureStackTrace env (w.envReads + 1)))
      (((runWrites (COS.bannerOps sigNum) w.tick).setStackTrace this
          (COS.captureStackTrace env (w.envReads + 1))).tick)
  obtain ⟨t1, t2, t3, t4, t5, t6, t9, t10⟩ :=
    tick_setStackTrace_onlyFields (runWrites (COS.bannerOps sigNum) w.tick) this
      (COS.captureStackTrace env (w.envReads + 1))
  obtain ⟨c1, c2, c3, c4, c5, c6, c7, c8, c9⟩ := sameButCapture_fields (b10 this)
  obtain ⟨d1, d2, d3, d4, d5, d6, d7, d8, d9⟩ := sameButCapture_fields (a10 this)
  rw [t10] at c1 c2 c3 c4 c5 c6 c7 c8 c9
  have e0 : w.tick.envReads = w.envReads + 1 := rfl
  refine ⟨?_, ?_, ?_, ?_, ?_, ?_, ?_, ?_, ?_, ?_, ?_, ?_, ?_, ?_, ?_, ?_⟩
  · rw [b1, t1, a1]; rfl
  · rw [b2, t2, a2]; rfl
  · rw [b3, t3, a3]; rfl
  · rw [b4, t4, a4]; rfl
  · rw [b5, t5, a5, e0]
  · rw [b6, t6, a6]; rfl
  · rw [b9, t9, a9]; rfl
  · rw [c7]
  · rw [c4]; exact d4
  · rw [c8]; exact d8
  · rw [c3]; exact d3
  · rw [c5]; exact d5
  · rw [c6]; exact d6
  · rw [c9]; exact d9
  · rw [c1]; exact d1
  · rw [c2]; exact d2

theorem join_bannerOps (sigNum : Int) :
    String.join ((COS.bannerOps sigNum).map WriteOp.bytes) = COS.banner sigNum := by
  simp [COS.bannerOps, COS.banner, WriteOp.bytes, join_cons, String.join, String.append_assoc]
  rfl

theorem join_traceOps (trace : String) :
    String.join ((COS.traceOps trace).map WriteOp.bytes) = COS.tracePrint trace := by
  by_cases ht : trace = ""
  · simp [COS.traceOps, COS.tracePrint, ht, String.join]
  · simp [COS.traceOps, COS.tracePrint, ht, WriteOp.bytes, join_cons, String.join,
      String.append_assoc]

theorem attached_tick (w : World) (this : Nat) (h : w.Attached this) :
    w.tick.Attached this := h

theorem attached_setStackTrace (w : World) (this : Nat) (trace : String)
    (h : w.Attached this) : (w.setStackTrace this trace).Attached this := by
  unfold World.Attached at *
  simp only [World.setStackTrace, World.setObject, Function.update_same]
  exact h

/-- On an attached session the banner and the printed trace are captured. -/
theorem handleSignalBanner_captured (env : Env) (this : Nat) (sigNum : Int) (w : World)
    (hatt : w.Attached this) :
    ((COS.handleSignalBanner env this sigNum w).objects this).capturedOutput =
      (w.objects this).capturedOutput ++ COS.banner sigNum ++
        COS.tracePrint (COS.captureStackTrace env (w.envReads + 1)) ∧
    (COS.handleSignalBanner env this sigNum w).Attached this := by
  rw [handleSignalBanner_eq]
  obtain ⟨o1, at1⟩ := runWrites_objects (COS.bannerOps sigNum) w.tick this
    (attached_tick w this hatt)
  have at2 := attached_tick _ this (attached_setStackTrace _ this
    (COS.captureStackTrace env (w.envReads + 1)) at1)
  obtain ⟨o3, at3⟩ := runWrites_objects
    (COS.traceOps (COS.captureStackTrace env (w.envReads + 1))) _ this at2
  refine ⟨?_, at3⟩
  rw [o3, join_traceOps]
  have t10 := (tick_setStackTrace_onlyFields (runWrites (COS.bannerOps sigNum) w.tick) this
      (COS.captureStackTrace env (w.envReads + 1))).2.2.2.2.2.2.2
  rw [t10, o1, join_bannerOps]
  rfl

theorem handleSignalCapture_frame (env : Env) (this : Nat) (sigNum : Int) (w : World) :
    (COS.handleSignalCapture env this sigNum w).globalInstance = w.globalInstance ∧
    (COS.handleSignalCapture env this sigNum w).status = w.status ∧
    (COS.handleSignalCapture env this sigNum w).g_crashHandlerActive =
      w.g_crashHandlerActive ∧
    ((COS.handleSignalCapture env this sigNum w).objects this).logSaved = true ∧
    ((COS.handleSignalCapture env this sigNum w).objects this).stackTrace =
      COS.captureStackTrace env (w.envReads + 1) ∧
    ((COS.handleSignalCapture env this sigNum w).objects this).crashCallback =
      (w.objects this).crashCallback ∧
    ((COS.handleSignalCapture env this sigNum w).objects this).logPath =
      (w.objects this).logPath ∧
    ((COS.handleSignalCapture env this sigNum w).objects this).executableName =
      (w.objects this).executableName ∧
    ((COS.handleSignalCapture env this sigNum w).objects this).startTime =
      (w.objects this).startTime ∧
    ((COS.handleSignalCapture env this sigNum w).objects this).startTimePoint =
      (w.objects this).startTimePoint := by
  unfold COS.handleSignalCapture
  obtain ⟨s1, s2, s3, -, -, -, -, -, s9, s10, s11, s12, s13, s14⟩ :=
    saveLog_frame env this ("Crashed: " ++ COS.getSignalName sigNum)
      (COS.handleSignalBanner env this sigNum w)
  obtain ⟨-, -, b3, -, -, b6, b7, b8, -, b10, b11, b12, b13, b14, -, -⟩ :=
    handleSignalBanner_frame env this sigNum w
  exact ⟨s1.trans b3, s2.trans b6, s3.trans b7, saveLog_logSaved _ _ _ _, s9.trans b8,
    s10.trans b10, s11.trans b11, s12.trans b12, s13.trans b13, s14.trans b14⟩

/-- On a session whose log is already saved the capture phase writes no file. -/
theorem handleSignalCapture_of_saved (env : Env) (this : Nat) (sigNum : Int) (w : World)
    (h : (w.objects this).logSaved = true) :
    COS.handleSignalCapture env this sigNum w = COS.handleSignalBanner env this sigNum w ∧
    (COS.handleSignalCapture env this sigNum w).fileWrites = w.fileWrites ∧
    (COS.handleSignalCapture env this sigNum w).envReads = w.envReads + 2 := by
  obtain ⟨-, -, -, b4, b5, -, -, -, b9, -⟩ := handleSignalBanner_frame env this sigNum w
  have e : COS.handleSignalCapture env this sigNum w =
      COS.handleSignalBanner env this sigNum w :=
    saveLog_of_saved env this _ _ (b9.trans h)
  rw [e]
  exact ⟨rfl, b4, b5⟩

theorem readFile_of_last (v : World) (before : List (String × String)) (path text : String)
    (h : v.fileWrites = before ++ [(path, text)]) : v.readFile path = some text := by
  unfold World.readFile
  rw [h]
  simp

theorem getSignalName_table :
    COS.getSignalName SIGTERM = "SIGTERM" ∧ COS.getSignalName SIGINT = "SIGINT" ∧
    COS.getSignalName SIGABRT = "SIGABRT" ∧ COS.getSignalName SIGFPE = "SIGFPE" ∧
    COS.getSignalName SIGILL = "SIGILL" ∧ COS.getSignalName SIGSEGV = "SIGSEGV" ∧
    COS.getSignalName SIGBUS = "SIGBUS" ∧ COS.getSignalName SIGQUIT = "SIGQUIT" ∧
    COS.getSignalName SIGTRAP = "SIGTRAP" ∧
    (∀ a ∈ interceptedSignals, ∀ b ∈ interceptedSignals,
      COS.getSignalName a = COS.getSignalName b → a = b) := by
  refine ⟨rfl, rfl, rfl, rfl, rfl, rfl, rfl, rfl, rfl, ?_⟩
  decide

/-- The file the capture phase leaves behind on an attached, unsaved session whose log file
opens. -/
theorem handleSignalCapture_file (env : Env) (this : Nat) (sigNum : Int) (w : World)
    (hatt : w.Attached this) (hunsaved : (w.objects this).logSaved = false)
    (hopen : env.canOpen (w.objects this).logPath = true) :
    (COS.handleSignalCapture env this sigNum w).fileWrites =
      w.fileWrites ++ [((w.objects this).logPath,
        COS.logHeader (w.objects this).executableName (w.objects this).startTime
            ("Crashed: " ++ COS.getSignalName sigNum)
            (COS.getTimestampForLog env (env.clock (w.envReads + 3)))
            (COS.durationBuffer
              (elapsedMs (w.objects this).startTimePoint (env.clock (w.envReads + 2))))
          ++ ((w.objects this).capturedOutput ++ COS.banner sigNum ++
            COS.tracePrint (COS.captureStackTrace env (w.envReads + 1)))
          ++ COS.traceSection (COS.captureStackTrace env (w.envReads + 1)))] := by
  obtain ⟨-, -, -, b4, b5, -, -, b8, b9, -, b11, b12, b13, b14, -, -⟩ :=
    handleSignalBanner_frame env this sigNum w
  have hcap := (handleSignalBanner_captured env this sigNum w hatt).1
  have h2 := (saveLog_of_unsaved env this ("Crashed: " ++ COS.getSignalName sigNum)
    (COS.handleSignalBanner env this sigNum w) (b9.trans hunsaved)).2.2.2
  rw [b11, if_pos hopen, b4, b5, b14] at h2
  unfold COS.handleSignalCapture
  rw [h2]
  simp only [COS.logFileText, b12, b13, hcap, b8]

/-! ### A signal delivered while the callback is running -/

theorem signalHandler_eq (env : Env) (call : Callbacks) (sigNum : Int) (w : World)
    (this : Nat) (hg : w.globalInstance = some this) :
    (∀ f, (w.objects this).crashCallback = some f →
      COS.signalHandler env call sigNum w =
        call f (COS.crashInfo env this sigNum w.envReads
            (COS.handleSignalCapture env this sigNum w))
          (COS.handleSignalCapture env this sigNum w).tick) ∧
    ((w.objects this).crashCallback = none →
      COS.signalHandler env call sigNum w =
        (COS.handleSignalCapture env this sigNum w).exit sigNum) := by
  have hcb := (handleSignalCapture_frame env this sigNum w).2.2.2.2.2.1
  constructor
  · intro f hf
    simp only [COS.signalHandler, hg, COS.handleSignal]
    rw [hcb, hf]
  · intro hf
    simp only [COS.signalHandler, hg, COS.handleSignal]
    rw [hcb, hf]

/-- The elapsed milliseconds are negative exactly when the end reading lies a full
millisecond or more before the start reading. -/
theorem elapsedMs_nonneg_iff (startTimePoint endTimePoint : Int) :
    0 ≤ elapsedMs startTimePoint endTimePoint ↔ startTimePoint - endTimePoint < 1000000 := by
  unfold elapsedMs ticksPerMs
  by_cases h : 0 ≤ endTimePoint - startTimePoint
  · rw [Int.tdiv_eq_ediv h (by norm_num)]
    omega
  · have hneg : (endTimePoint - startTimePoint).tdiv 1000000 =
        -((startTimePoint - endTimePoint).tdiv 1000000) := by
      rw [← Int.neg_tdiv]
      congr 1
      omega
    rw [hneg, Int.tdiv_eq_ediv (by omega) (by norm_num)]
    omega

theorem elapsedMs_nonneg (startTimePoint endTimePoint : Int)
    (h : startTimePoint ≤ endTimePoint) : 0 ≤ elapsedMs startTimePoint endTimePoint :=
  Int.tdiv_nonneg (by omega) (by unfold ticksPerMs; norm_num)


theorem inCallback_facts (env : Env) (this : Nat) (s1 : Int) (w : World) :
    (inCallback env this s1 w).globalInstance = w.globalInstance ∧
    (inCallback env this s1 w).g_crashHandlerActive = true ∧
    (inCallback env this s1 w).fileWrites =
      (COS.handleSignalCapture env this s1 w).fileWrites ∧
    (inCallback env this s1 w).status = w.status ∧
    ((inCallback env this s1 w).objects this).logSaved = true ∧
    ((inCallback env this s1 w).objects this).crashCallback =
      (w.objects this).crashCallback := by
  obtain ⟨-, -, a3, a4, -, a6, -, -, a9, a10⟩ :=
    runWrites_onlyOutput
      (crashAnnounceOps
        (COS.crashInfo env this s1 w.envReads (COS.handleSignalCapture env this s1 w)))
      (COS.handleSignalCapture env this s1 w).tick.setCrashHandlerActive
  obtain ⟨f1, f2, -, f4, -, f6, -⟩ := handleSignalCapture_frame env this s1 w
  obtain ⟨-, -, -, c4, -, -, -, c8, -⟩ := sameButCapture_fields (a10 this)
  unfold inCallback
  refine ⟨a3.trans f1, a9, a4, a6.trans f2, c4.trans f4, c8.trans f6⟩

theorem first_callback (env : Env) (this f : Nat) (s1 : Int) (script : DialogScript)
    (w : World) (hg : w.globalInstance = some this)
    (hcb : (w.objects this).crashCallback = some f)
    (hact : w.g_crashHandlerActive = false) :
    COS.signalHandler env (appCallbacks env script) s1 w =
      crashDialog env script (inCallback env this s1 w) := by
  have e := (signalHandler_eq env (appCallbacks env script) s1 w this hg).1 f hcb
  rw [e]
  have h3 : (COS.handleSignalCapture env this s1 w).tick.g_crashHandlerActive = false :=
    (handleSignalCapture_frame env this s1 w).2.2.1.trans hact
  unfold appCallbacks handleApplicationCrash handleApplicationCrashWith
  rw [h3]
  rfl

/-- A signal that arrives once the guard flag is set, on a session whose log is saved:
the capture phase prints and captures again, `saveLog` returns at once, and the callback's
guard exits with the new signal's number. -/
theorem nested_signal (env : Env) (this f : Nat) (s2 : Int) (dialog : World → World)
    (v : World) (hg : v.globalInstance = some this)
    (hcb : (v.objects this).crashCallback = some f)
    (hact : v.g_crashHandlerActive = true) (hsaved : (v.objects this).logSaved = true) :
    COS.signalHandler env (fun _ => handleApplicationCrashWith dialog) s2 v =
      (((COS.handleSignalBanner env this s2 v).tick.write .cerr
        "Recursive crash detected, terminated.").endl .cerr).exit s2 := by
  have e :=
    (signalHandler_eq env (fun _ => handleApplicationCrashWith dialog) s2 v this hg).1 f hcb
  rw [e]
  have h3 : (COS.handleSignalCapture env this s2 v).tick.g_crashHandlerActive = true :=
    (handleSignalCapture_frame env this s2 v).2.2.1.trans hact
  unfold handleApplicationCrashWith
  rw [h3, (handleSignalCapture_of_saved env this s2 v hsaved).1]
  rfl

theorem recursive_crash_final (env : Env) (this f : Nat) (s1 s2 : Int) (rest : DialogScript)
    (w : World) (hg : w.globalInstance = some this)
    (hcb : (w.objects this).crashCallback = some f)
    (hact : w.g_crashHandlerActive = false) :
    COS.signalHandler env (appCallbacks env (.signal s2 rest)) s1 w =
      (((COS.handleSignalBanner env this s2 (inCallback env this s1 w)).tick.write .cerr
        "Recursive crash detected, terminated.").endl .cerr).exit s2 := by
  obtain ⟨i1, i2, -, -, i5, i6⟩ := inCallback_facts env this s1 w
  rw [first_callback env this f s1 _ w hg hcb hact]
  have hn := nested_signal env this f s2 (crashDialog env rest) (inCallback env this s1 w)
    (i1.trans hg) (i6.trans hcb) i2 i5
  have hd : crashDialog env (.signal s2 rest) (inCallback env this s1 w) =
      (COS.signalHandler env (fun _ => handleApplicationCrashWith (crashDialog env rest)) s2
        (inCallback env this s1 w)).thenIfRunning (crashDialog env rest) := rfl
  rw [hd, hn]
  rfl

/-- What the guard's exit leaves of the state reached by the second capture phase. -/
theorem guard_exit_facts (v : World) (this : Nat) (code : Int) :
    (((v.tick.write .cerr "Recursive crash detected, terminated.").endl .cerr).exit
      code).status = .exited code ∧
    (((v.tick.write .cerr "Recursive crash detected, terminated.").endl .cerr).exit
      code).fileWrites = v.fileWrites ∧
    ((((v.tick.write .cerr "Recursive crash detected, terminated.").endl .cerr).exit
      code).objects this).logSaved = (v.objects this).logSaved ∧
    ((((v.tick.write .cerr "Recursive crash detected, terminated.").endl .cerr).exit
      code).objects this).stackTrace = (v.objects this).stackTrace := by
  have h1 := write_onlyOutput v.tick .cerr "Recursive crash detected, terminated."
  have h2 := endl_onlyOutput (v.tick.write .cerr "Recursive crash detected, terminated.") .cerr
  obtain ⟨-, -, -, a4, -, -, -, -, -, a10⟩ := onlyOutput_trans h1 h2
  obtain ⟨-, -, -, c4, -, -, c7, -, -⟩ := sameButCapture_fields (a10 this)
  exact ⟨rfl, a4, c4, c7⟩

/-! ### Searching a text -/

theorem startsWith_append (piece rest : List Char) : startsWith piece (piece ++ rest) = true := by
  induction piece with
  | nil => rfl
  | cons p ps ih => simp [startsWith, ih]

theorem occursIn_append (piece before after : List Char) :
    occursIn piece (before ++ (piece ++ after)) = true := by
  induction before with
  | nil =>
    cases h : piece ++ after with
    | nil =>
      have hp : piece = [] := (List.append_eq_nil.mp h).1
      simp [occursIn, hp, startsWith]
    | cons c cs =>
      simp only [List.nil_append, occursIn, Bool.or_eq_true]
      left
      rw [← h]
      exact startsWith_append piece after
  | cons b bs ih =>
    simp only [List.cons_append, occursIn, Bool.or_eq_true]
    right
    exact ih

theorem occursIn_of_contains (text piece : String) (h : Contains text piece) :
    occursIn piece.data text.data = true := by
  obtain ⟨before, after, rfl⟩ := h
  simp only [String.data_append, List.append_assoc]
  exact occursIn_append _ _ _

/-! ### `Tri_term` and `Tri_reset` -/

theorem Tri_term_of_saved (env : Env) (this : Nat) (v : World)
    (hg : v.globalInstance = some this) (hs : (v.objects this).logSaved = true) :
    (COS.Tri_term env v).fileWrites = v.fileWrites ∧
    (v.automatic this = false → (COS.Tri_term env v).status = .exited 0) := by
  by_cases ha : v.automatic this = true
  · simp [COS.Tri_term, hg, COS.dtor, hs, World.exit, ha]
  · simp [COS.Tri_term, hg, COS.dtor, hs, World.exit, ha]

theorem Tri_reset_fileWrites (env : Env) (this : Nat) (w : World)
    (hg : w.globalInstance = some this) :
    (COS.Tri_reset env w).fileWrites =
      (COS.saveLog env this "Application restart initiated" w).fileWrites := by
  have hs := saveLog_logSaved env this "Application restart initiated" w
  have hg1 : (COS.saveLog env this "Application restart initiated" w).globalInstance =
      some this := (saveLog_frame env this _ w).1.trans hg
  have ht := (Tri_term_of_saved env this
    (COS.saveLog env this "Application restart initiated" w).tick hg1 hs).1
  have hf : COS.saveLog env this "Failed to fork for restart"
      (COS.saveLog env this "Application restart initiated" w).tick =
      (COS.saveLog env this "Application restart initiated" w).tick :=
    saveLog_of_saved env this _ _ hs
  unfold COS.Tri_reset
  simp only [hg]
  split_ifs
  · rfl
  · rfl
  · rfl
  · rfl
  · exact ht
  · have hg2 : (COS.saveLog env this "Application restart initiated" w).tick.globalInstance =
        some this := hg1
    simp only [hg2, hf]
    exact ht

/-! ### Signal dispositions and mask -/

theorem ctor_spec (env : Env) (this : Nat) (w : World)
    (hout : w.coutBuf.mentions this = false) (herr : w.cerrBuf.mentions this = false) :
    (COS.ctor env this w).Attached this ∧
    (COS.ctor env this w).objects this =
      { COS.fresh env this w with
        capturedOutput := "COS: " ++ (COS.fresh env this w).logPath ++ "\n" } ∧
    (COS.ctor env this w).globalInstance = some this ∧
    (COS.ctor env this w).fileWrites = w.fileWrites ∧
    (COS.ctor env this w).status = w.status ∧
    (COS.ctor env this w).envReads = w.envReads + 3 := by
  let w2 : World := COS.setupSignalHandlers
    { w.setObject this (COS.fresh env this w) with
      live := Function.update w.live this true,
      coutBuf := (COS.fresh env this w).coutBuffer, cerrBuf := (COS.fresh env this w).cerrBuffer,
      globalInstance := some this, envReads := w.envReads + 3 }
  have hctor : COS.ctor env this w =
      ((w2.write .cout "COS: ").write .cout (COS.fresh env this w).logPath).endl .cout := rfl
  have hobj : w2.objects this = COS.fresh env this w := by
    simp [w2, COS.setupSignalHandlers, World.setObject]
  have ha2 : w2.Attached this := by
    unfold World.Attached
    rw [hobj]
    exact ⟨rfl, hout, rfl, herr⟩
  have ha3 := write_attached w2 this .cout "COS: " ha2
  have ha4 := write_attached _ this .cout (COS.fresh env this w).logPath ha3
  have ha5 := write_attached _ this .cout "\n" ha4
  have ho3 := write_objects w2 this .cout "COS: " ha2
  have ho4 := write_objects _ this .cout (COS.fresh env this w).logPath ha3
  have ho5 := write_objects _ this .cout "\n" ha4
  have hf3 := write_frame w2 .cout "COS: "
  have hf4 := write_frame (w2.write .cout "COS: ") .cout (COS.fresh env this w).logPath
  have hf5 := write_frame ((w2.write .cout "COS: ").write .cout (COS.fresh env this w).logPath)
    .cout "\n"
  rw [hctor, endl_eq_write]
  refine ⟨ha5, ?_, ?_, ?_, ?_, ?_⟩
  · rw [ho5, ho4, ho3, hobj]
    simp [COS.fresh, String.append_assoc]
  · rw [hf5.2.2.1, hf4.2.2.1, hf3.2.2.1]; rfl
  · rw [hf5.2.2.2.1, hf4.2.2.2.1, hf3.2.2.2.1]; rfl
  · rw [hf5.2.2.2.2.2.1, hf4.2.2.2.2.2.1, hf3.2.2.2.2.2.1]; rfl
  · rw [hf5.2.2.2.2.1, hf4.2.2.2.2.1, hf3.2.2.2.2.1]; rfl

/-! ### Claims -/

/-- C1: after a session is constructed at a fresh address, for every sequence of
single-character and block writes issued to standard output and standard error,
`getLogContent()` is exactly the constructor's announcement line `COS: <logPath>` followed
by the concatenation of all written characters in issuance order, both streams
interleaved as issued. -/
theorem getLogContent_is_concatenation_of_writes (env : Env) (this : Nat) (w : World)
    (ops : List WriteOp)
    (hout : w.coutBuf.mentions this = false) (herr : w.cerrBuf.mentions this = false) :
    COS.getLogContent this (runWrites ops (COS.ctor env this w)) =
      "COS: " ++ COS.getLogPath this (COS.ctor env this w) ++ "\n" ++
        String.join (ops.map WriteOp.bytes) := by
  obtain ⟨hatt, hobj, -⟩ := ctor_spec env this w hout herr
  have h := (runWrites_objects ops _ this hatt).1
  unfold COS.getLogContent COS.getLogPath
  rw [h, hobj]

/-- C1 on the sample run: a session built at address 1 in a fresh process. -/
theorem getLogContent_is_concatenation_of_writes_witness :
    World.start.coutBuf.mentions 1 = false ∧ World.start.cerrBuf.mentions 1 = false ∧
    COS.getLogContent 1 (runWrites sampleWrites (COS.ctor Env.sample 1 World.start)) =
      "COS: /tmp/demo_at0.log\nabcd" :=
  ⟨rfl, rfl,
    (getLogContent_is_concatenation_of_writes Env.sample 1 World.start sampleWrites rfl rfl).trans
      (by decide)⟩

/-- Below one hundred hours the 32-byte rendering inside `saveLog` is the spec's text. -/
theorem durationBuffer_below_hundred_hours (n : Nat) (h : n < 360000000) :
    COS.durationBuffer (n : Int) = specDuration n := by
  have hlen : (fmtDuration ((n / 3600000 : Nat) : Int) ((n / 60000 % 60 : Nat) : Int)
      ((n / 1000 % 60 : Nat) : Int) ((n / 10 % 100 : Nat) : Int)).length = 11 := by
    have h1 : n / 3600000 < 100 := by omega
    have h2 : n / 60000 % 60 < 100 := by omega
    have h3 : n / 1000 % 60 < 100 := by omega
    have h4 : n / 10 % 100 < 100 := by omega
    unfold fmtDuration
    rw [fmt02lld_of_lt_hundred _ h1, fmt02lld_of_lt_hundred _ h2,
      fmt02lld_of_lt_hundred _ h3, fmt02lld_of_lt_hundred _ h4]
    rfl
  unfold COS.durationBuffer snprintf
  simp only []
  rw [fmtDuration_fields n, List.take_of_length_le (by rw [hlen]; norm_num)]
  exact fmtDuration_lt_hundred_hours n h

/-- C2: `saveLog` is single-shot. For every state and all exit reasons `r1`, `r2`, the
second of two calls is a no-op (the whole state, files included, stays as the first call left
it); on a state with `logSaved = true` a call changes nothing and writes nothing; the two
calls together add at most one write, and exactly one, carrying `r1`, when the session was
unsaved and its log file opens. -/
theorem saveLog_single_shot (env : Env) (this : Nat) (r1 r2 : String) (w : World) :
    COS.saveLog env this r2 (COS.saveLog env this r1 w) = COS.saveLog env this r1 w ∧
    ((w.objects this).logSaved = true → COS.saveLog env this r1 w = w) ∧
    (∃ added : List (String × String), added.length ≤ 1 ∧
      (COS.saveLog env this r2 (COS.saveLog env this r1 w)).fileWrites =
        w.fileWrites ++ added) ∧
    ((w.objects this).logSaved = false → env.canOpen (w.objects this).logPath = true →
      (COS.saveLog env this r2 (COS.saveLog env this r1 w)).fileWrites =
        w.fileWrites ++ [((w.objects this).logPath,
          COS.logFileText { w.objects this with logSaved := true } r1
            (COS.getTimestampForLog env (env.clock (w.envReads + 1)))
            (COS.durationBuffer
              (elapsedMs (w.objects this).startTimePoint (env.clock w.envReads))))]) := by
  rw [saveLog_saveLog]
  refine ⟨rfl, saveLog_of_saved env this r1 w, ?_, ?_⟩
  · by_cases h : (w.objects this).logSaved = true
    · exact ⟨[], by simp, by rw [saveLog_of_saved env this r1 w h]; simp⟩
    · have h2 := (saveLog_of_unsaved env this r1 w (by simpa using h)).2.2.2
      by_cases hopen : env.canOpen (w.objects this).logPath = true
      · rw [if_pos hopen] at h2
        exact ⟨_, by simp, h2⟩
      · rw [if_neg hopen] at h2
        exact ⟨[], by simp, by rw [h2]; simp⟩
  · intro h hopen
    have h2 := (saveLog_of_unsaved env this r1 w h).2.2.2
    rw [if_pos hopen] at h2
    exact h2

/-- C2 on the sample session, saved first for a crash and then for a normal exit. -/
theorem saveLog_single_shot_witness :
    (World.sample.objects 1).logSaved = false ∧
    Env.sample.canOpen (World.sample.objects 1).logPath = true ∧
    (COS.saveLog Env.sample 1 "Normal exit"
        (COS.saveLog Env.sample 1 "Crashed: SIGSEGV" World.sample)).fileWrites =
      [("/tmp/demo_at0.log",
        COS.logFileText { World.sample.objects 1 with logSaved := true } "Crashed: SIGSEGV"
          "day 1000" "00:00:00:50")] :=
  ⟨by decide, by decide,
    ((saveLog_single_shot Env.sample 1 "Crashed: SIGSEGV" "Normal exit" World.sample).2.2.2
      (by decide) (by decide)).trans rfl⟩

/-- C3: for every signal number delivered through `signalHandler` to the active session,
if no crash callback is registered the process exits with that signal number as exit
status; if a callback is registered, `handleSignal` is exactly one invocation of it, on a
state in which the core has not called exit, and whatever the callback leaves is the
result. -/
theorem signalHandler_exits_or_calls_back_once (env : Env) (call : Callbacks) (sigNum : Int)
    (w : World) (this : Nat) (hg : w.globalInstance = some this) :
    ((w.objects this).crashCallback = none →
      (COS.signalHandler env call sigNum w).status = .exited sigNum) ∧
    (∀ f, (w.objects this).crashCallback = some f →
      COS.signalHandler env call sigNum w =
        call f (COS.crashInfo env this sigNum w.envReads
            (COS.handleSignalCapture env this sigNum w))
          (COS.handleSignalCapture env this sigNum w).tick ∧
      (COS.handleSignalCapture env this sigNum w).tick.status = w.status) := by
  obtain ⟨h1, h2⟩ := signalHandler_eq env call sigNum w this hg
  constructor
  · intro hf
    rw [h2 hf]
    rfl
  · intro f hf
    exact ⟨h1 f hf, (handleSignalCapture_frame env this sigNum w).2.1⟩

/-- C3 on the sample session without a callback: `SIGSEGV` ends the process with status 11. -/
theorem signalHandler_exits_or_calls_back_once_witness :
    World.sample.globalInstance = some 1 ∧ (World.sample.objects 1).crashCallback = none ∧
    (COS.signalHandler Env.sample (fun _ _ v => v) SIGSEGV World.sample).status =
      .exited 11 :=
  ⟨rfl, rfl,
    (signalHandler_exits_or_calls_back_once Env.sample (fun _ _ v => v) SIGSEGV World.sample 1
      rfl).1 rfl⟩

/-- C4, the claim as stated fails: the sample session is built while the system clock is
one hour ahead and the clock is set back before `SIGSEGV` arrives; the `CrashInfo` handed to
the callback carries `sessionDurationMs = -3598500`, which is negative. -/
theorem negative_duration_counterexample :
    World.sampleClockBack.globalInstance = some 1 ∧
    (World.sampleClockBack.objects 1).crashCallback = some 0 ∧
    ∃ (info : CrashInfo) (atCallback : World),
      (∀ call : Callbacks,
        COS.signalHandler Env.sampleClockBack call SIGSEGV World.sampleClockBack =
          call 0 info atCallback) ∧
      info.sessionDurationMs = -3598500 ∧ ¬ (0 ≤ info.sessionDurationMs) := by
  refine ⟨rfl, rfl,
    COS.crashInfo Env.sampleClockBack 1 SIGSEGV World.sampleClockBack.envReads
      (COS.handleSignalCapture Env.sampleClockBack 1 SIGSEGV World.sampleClockBack),
    (COS.handleSignalCapture Env.sampleClockBack 1 SIGSEGV World.sampleClockBack).tick,
    fun call => (signalHandler_eq Env.sampleClockBack call SIGSEGV World.sampleClockBack 1
      rfl).1 0 rfl, ?_, ?_⟩
  · rfl
  · have h : (COS.crashInfo Env.sampleClockBack 1 SIGSEGV World.sampleClockBack.envReads
        (COS.handleSignalCapture Env.sampleClockBack 1 SIGSEGV
          World.sampleClockBack)).sessionDurationMs = -3598500 := rfl
    rw [h]
    decide

/-- C4 as amended: for every signal delivered to a session with a registered callback, the
`CrashInfo` passed to the callback has `signalName = getSignalName(sigNum)`,
`signalNumber = sigNum`, `stackTrace` = the session's last stack trace (the one just
captured), `logPath = getLogPath()`, `logContent` = the captured-output snapshot,
`executableName = getExecutableName()`, `startTime = getStartTime()` (path, name and start
time being those the session had before the signal), and `sessionDurationMs` = the
`system_clock` reading at the crash minus the reading at construction, in whole
milliseconds rounded toward zero; it is at least 0 exactly when the crash reading is less
than one millisecond before the construction reading, so it is negative when the clock
was set back further than that. -/
theorem crashInfo_matches_session (env : Env) (sigNum : Int) (w : World)
    (this f : Nat) (hg : w.globalInstance = some this)
    (hcb : (w.objects this).crashCallback = some f) :
    ∃ (info : CrashInfo) (atCallback : World) (crashInstant : Int),
      (∀ call : Callbacks, COS.signalHandler env call sigNum w = call f info atCallback) ∧
      info.signalName = COS.getSignalName sigNum ∧
      info.signalNumber = sigNum ∧
      info.stackTrace = COS.getStackTrace this atCallback ∧
      info.stackTrace = COS.captureStackTrace env (w.envReads + 1) ∧
      info.logPath = COS.getLogPath this atCallback ∧
      info.logPath = COS.getLogPath this w ∧
      info.logContent = COS.getLogContent this atCallback ∧
      info.executableName = COS.getExecutableName this atCallback ∧
      info.executableName = COS.getExecutableName this w ∧
      info.startTime = COS.getStartTime this atCallback ∧
      info.startTime = COS.getStartTime this w ∧
      crashInstant = env.clock (atCallback.envReads - 1) ∧
      info.sessionDurationMs = (crashInstant - (w.objects this).startTimePoint).tdiv 1000000 ∧
      (0 ≤ info.sessionDurationMs ↔
        (w.objects this).startTimePoint - crashInstant < 1000000) := by
  obtain ⟨-, -, -, -, f5, -, f7, f8, f9, f10⟩ := handleSignalCapture_frame env this sigNum w
  refine ⟨COS.crashInfo env this sigNum w.envReads (COS.handleSignalCapture env this sigNum w),
    (COS.handleSignalCapture env this sigNum w).tick,
    env.clock (COS.handleSignalCapture env this sigNum w).envReads,
    fun call => (signalHandler_eq env call sigNum w this hg).1 f hcb, rfl, rfl, rfl, f5, rfl,
    f7, rfl, rfl, f8, rfl, f9, rfl, ?_, ?_⟩
  · show elapsedMs _ _ = _
    rw [f10]; rfl
  · show 0 ≤ elapsedMs _ _ ↔ _
    rw [f10]
    exact elapsedMs_nonneg_iff _ _

/-- C4 as amended, on the sample session with a callback registered, for `SIGSEGV`. -/
theorem crashInfo_matches_session_witness :
    World.sampleWithCallback.globalInstance = some 1 ∧
    (World.sampleWithCallback.objects 1).crashCallback = some 0 ∧
    ∃ (info : CrashInfo) (atCallback : World) (crashInstant : Int),
      (∀ call : Callbacks,
        COS.signalHandler Env.sample call SIGSEGV World.sampleWithCallback =
          call 0 info atCallback) ∧
      info.signalName = COS.getSignalName SIGSEGV ∧
      info.signalNumber = SIGSEGV ∧
      info.stackTrace = COS.getStackTrace 1 atCallback ∧
      info.stackTrace = COS.captureStackTrace Env.sample (World.sampleWithCallback.envReads + 1) ∧
      info.logPath = COS.getLogPath 1 atCallback ∧
      info.logPath = COS.getLogPath 1 World.sampleWithCallback ∧
      info.logContent = COS.getLogContent 1 atCallback ∧
      info.executableName = COS.getExecutableName 1 atCallback ∧
      info.executableName = COS.getExecutableName 1 World.sampleWithCallback ∧
      info.startTime = COS.getStartTime 1 atCallback ∧
      info.startTime = COS.getStartTime 1 World.sampleWithCallback ∧
      crashInstant = Env.sample.clock (atCallback.envReads - 1) ∧
      info.sessionDurationMs =
        (crashInstant - (World.sampleWithCallback.objects 1).startTimePoint).tdiv 1000000 ∧
      (0 ≤ info.sessionDurationMs ↔
        (World.sampleWithCallback.objects 1).startTimePoint - crashInstant < 1000000) :=
  ⟨rfl, rfl,
    crashInfo_matches_session Env.sample SIGSEGV World.sampleWithCallback 1 0 rfl rfl⟩

/-- C5: when a signal is delivered to the active session (attached, log not yet saved, log
file opens), the log file at the session's log path, both when `handleSignal` exits and
when it hands over to the callback, is the metadata block whose `Exit:` line reads
`Crashed: ` followed by the signal's name, then the captured text, which ends with the
failure banner naming the signal (and the printed trace), then the trace section;
`getSignalName` gives each of SIGTERM, SIGINT, SIGABRT, SIGFPE, SIGILL, SIGSEGV, SIGBUS,
SIGQUIT, SIGTRAP its own canonical name, all distinct. -/
theorem crash_log_names_the_signal (env : Env) (call : Callbacks) (sigNum : Int) (w : World)
    (this : Nat) (hg : w.globalInstance = some this) (hatt : w.Attached this)
    (hunsaved : (w.objects this).logSaved = false)
    (hopen : env.canOpen (COS.getLogPath this w) = true) :
    ∃ exitStamp duration trace printedTrace traceSection text : String,
      text =
        "--------------------------------------------- DATA ----------------------------------------------\n"
          ++ "App: " ++ COS.getExecutableName this w ++ "\n"
          ++ "Start: " ++ COS.getStartTime this w ++ "\n"
          ++ "Exit: " ++ ("Crashed: " ++ COS.getSignalName sigNum) ++ " at " ++ exitStamp ++ "\n"
          ++ "Duration: " ++ duration ++ " (HH:MM:SS:CS)\n\n"
          ++ "----------------------------------------- CAPTURED LOGS -----------------------------------------\n"
          ++ (COS.getLogContent this w ++
            ("\n!!! A " ++ COS.getSignalName sigNum ++ " SIGNAL FAILURE CAUGHT !!!" ++ "\n") ++
            printedTrace)
          ++ traceSection ∧
      exitStamp = COS.getTimestampForLog env (env.clock (w.envReads + 3)) ∧
      duration = COS.durationBuffer
        (elapsedMs (w.objects this).startTimePoint (env.clock (w.envReads + 2))) ∧
      trace = COS.captureStackTrace env (w.envReads + 1) ∧
      ((trace = "" ∧ printedTrace = "" ∧ traceSection = "") ∨
        (trace ≠ "" ∧
          printedTrace = "\n The Crash Signal  Trace; " ++ irs ++ trace ++ irs ∧
          traceSection = " THE SIGNAL FAULT STACK TRACE :" ++ irs ++ trace ++ irs)) ∧
      ((w.objects this).crashCallback = none →
        (COS.signalHandler env call sigNum w).readFile (COS.getLogPath this w) =
          some text ∧
        (COS.signalHandler env call sigNum w).status = .exited sigNum) ∧
      (∀ f, (w.objects this).crashCallback = some f →
        ∃ (info : CrashInfo) (atCallback : World),
          COS.signalHandler env call sigNum w = call f info atCallback ∧
          atCallback.readFile (COS.getLogPath this w) = some text) ∧
      COS.getSignalName SIGTERM = "SIGTERM" ∧ COS.getSignalName SIGINT = "SIGINT" ∧
      COS.getSignalName SIGABRT = "SIGABRT" ∧ COS.getSignalName SIGFPE = "SIGFPE" ∧
      COS.getSignalName SIGILL = "SIGILL" ∧ COS.getSignalName SIGSEGV = "SIGSEGV" ∧
      COS.getSignalName SIGBUS = "SIGBUS" ∧ COS.getSignalName SIGQUIT = "SIGQUIT" ∧
      COS.getSignalName SIGTRAP = "SIGTRAP" ∧
      (∀ a ∈ interceptedSignals, ∀ b ∈ interceptedSignals,
        COS.getSignalName a = COS.getSignalName b → a = b) := by
  have hfile := handleSignalCapture_file env this sigNum w hatt hunsaved hopen
  obtain ⟨h1, h2⟩ := signalHandler_eq env call sigNum w this hg
  have htext : COS.logHeader (w.objects this).executableName (w.objects this).startTime
        ("Crashed: " ++ COS.getSignalName sigNum)
        (COS.getTimestampForLog env (env.clock (w.envReads + 3)))
        (COS.durationBuffer
          (elapsedMs (w.objects this).startTimePoint (env.clock (w.envReads + 2))))
      ++ ((w.objects this).capturedOutput ++ COS.banner sigNum ++
        COS.tracePrint (COS.captureStackTrace env (w.envReads + 1)))
      ++ COS.traceSection (COS.captureStackTrace env (w.envReads + 1)) =
      "--------------------------------------------- DATA ----------------------------------------------\n"
        ++ "App: " ++ COS.getExecutableName this w ++ "\n"
        ++ "Start: " ++ COS.getStartTime this w ++ "\n"
        ++ "Exit: " ++ ("Crashed: " ++ COS.getSignalName sigNum) ++ " at " ++
          COS.getTimestampForLog env (env.clock (w.envReads + 3)) ++ "\n"
        ++ "Duration: " ++ COS.durationBuffer
          (elapsedMs (w.objects this).startTimePoint (env.clock (w.envReads + 2))) ++
          " (HH:MM:SS:CS)\n\n"
        ++ "----------------------------------------- CAPTURED LOGS -----------------------------------------\n"
        ++ (COS.getLogContent this w ++
          ("\n!!! A " ++ COS.getSignalName sigNum ++ " SIGNAL FAILURE CAUGHT !!!" ++ "\n") ++
          COS.tracePrint (COS.captureStackTrace env (w.envReads + 1)))
        ++ COS.traceSection (COS.captureStackTrace env (w.envReads + 1)) := by
    simp only [COS.logHeader, COS.banner, COS.getExecutableName, COS.getStartTime,
      COS.getLogContent, String.append_assoc]
  rw [htext] at hfile
  refine ⟨COS.getTimestampForLog env (env.clock (w.envReads + 3)),
    COS.durationBuffer (elapsedMs (w.objects this).startTimePoint (env.clock (w.envReads + 2))),
    COS.captureStackTrace env (w.envReads + 1),
    COS.tracePrint (COS.captureStackTrace env (w.envReads + 1)),
    COS.traceSection (COS.captureStackTrace env (w.envReads + 1)), _, rfl, rfl, rfl, rfl,
    ?_, ?_, ?_, getSignalName_table⟩
  · by_cases ht : COS.captureStackTrace env (w.envReads + 1) = ""
    · left
      exact ⟨ht, by simp [COS.tracePrint, ht], by simp [COS.traceSection, ht]⟩
    · right
      exact ⟨ht, by simp [COS.tracePrint, ht], by simp [COS.traceSection, ht]⟩
  · intro hf
    rw [h2 hf]
    exact ⟨readFile_of_last _ _ _ _ hfile, rfl⟩
  · intro f hf
    exact ⟨_, _, h1 f hf, readFile_of_last _ _ _ _ hfile⟩

/-- C5 on the sample session, for `SIGSEGV`. -/
theorem crash_log_names_the_signal_witness :
    World.sample.globalInstance = some 1 ∧ World.sample.Attached 1 ∧
    (World.sample.objects 1).logSaved = false ∧
    Env.sample.canOpen (COS.getLogPath 1 World.sample) = true ∧
    ∃ exitStamp duration trace printedTrace traceSection text : String,
      text =
        "--------------------------------------------- DATA ----------------------------------------------\n"
          ++ "App: " ++ COS.getExecutableName 1 World.sample ++ "\n"
          ++ "Start: " ++ COS.getStartTime 1 World.sample ++ "\n"
          ++ "Exit: " ++ ("Crashed: " ++ COS.getSignalName SIGSEGV) ++ " at " ++ exitStamp ++ "\n"
          ++ "Duration: " ++ duration ++ " (HH:MM:SS:CS)\n\n"
          ++ "----------------------------------------- CAPTURED LOGS -----------------------------------------\n"
          ++ (COS.getLogContent 1 World.sample ++
            ("\n!!! A " ++ COS.getSignalName SIGSEGV ++ " SIGNAL FAILURE CAUGHT !!!" ++ "\n") ++
            printedTrace)
          ++ traceSection ∧
      exitStamp = COS.getTimestampForLog Env.sample (Env.sample.clock (World.sample.envReads + 3)) ∧
      duration = COS.durationBuffer
        (elapsedMs (World.sample.objects 1).startTimePoint (Env.sample.clock (World.sample.envReads + 2))) ∧
      trace = COS.captureStackTrace Env.sample (World.sample.envReads + 1) ∧
      ((trace = "" ∧ printedTrace = "" ∧ traceSection = "") ∨
        (trace ≠ "" ∧
          printedTrace = "\n The Crash Signal  Trace; " ++ irs ++ trace ++ irs ∧
          traceSection = " THE SIGNAL FAULT STACK TRACE :" ++ irs ++ trace ++ irs)) ∧
      ((World.sample.objects 1).crashCallback = none →
        (COS.signalHandler Env.sample (fun _ _ v => v) SIGSEGV World.sample).readFile (COS.getLogPath 1 World.sample) =
          some text ∧
        (COS.signalHandler Env.sample (fun _ _ v => v) SIGSEGV World.sample).status = .exited SIGSEGV) ∧
      (∀ f, (World.sample.objects 1).crashCallback = some f →
        ∃ (info : CrashInfo) (atCallback : World),
          COS.signalHandler Env.sample (fun _ _ v => v) SIGSEGV World.sample = (fun _ _ v => v) f info atCallback ∧
          atCallback.readFile (COS.getLogPath 1 World.sample) = some text) ∧
      COS.getSignalName SIGTERM = "SIGTERM" ∧ COS.getSignalName SIGINT = "SIGINT" ∧
      COS.getSignalName SIGABRT = "SIGABRT" ∧ COS.getSignalName SIGFPE = "SIGFPE" ∧
      COS.getSignalName SIGILL = "SIGILL" ∧ COS.getSignalName SIGSEGV = "SIGSEGV" ∧
      COS.getSignalName SIGBUS = "SIGBUS" ∧ COS.getSignalName SIGQUIT = "SIGQUIT" ∧
      COS.getSignalName SIGTRAP = "SIGTRAP" ∧
      (∀ a ∈ interceptedSignals, ∀ b ∈ interceptedSignals,
        COS.getSignalName a = COS.getSignalName b → a = b) :=
  ⟨rfl, ⟨rfl, rfl, rfl, rfl⟩, rfl, rfl,
    crash_log_names_the_signal Env.sample (fun _ _ v => v) SIGSEGV World.sample 1 rfl
      ⟨rfl, rfl, rfl, rfl⟩ rfl rfl⟩

/-- C6: whenever `saveLog` actually writes (`logSaved` was false and the file opens), the
file receives, in this order: the metadata block with the executable name, the start
timestamp, the exit reason with the exit timestamp and the elapsed duration (rendered
`HH:MM:SS:CS` below one hundred hours); then the captured text exactly as `getLogContent()`
returns it; then a delimited stack-trace section if and only if the stack trace is
non-empty. -/
theorem saveLog_file_layout (env : Env) (this : Nat) (exitReason : String) (w : World)
    (hunsaved : (w.objects this).logSaved = false)
    (hopen : env.canOpen (COS.getLogPath this w) = true) :
    ∃ exitStamp duration traceSection : String,
      (COS.saveLog env this exitReason w).fileWrites =
        w.fileWrites ++ [(COS.getLogPath this w,
          "--------------------------------------------- DATA ----------------------------------------------\n"
            ++ "App: " ++ COS.getExecutableName this w ++ "\n"
            ++ "Start: " ++ COS.getStartTime this w ++ "\n"
            ++ "Exit: " ++ exitReason ++ " at " ++ exitStamp ++ "\n"
            ++ "Duration: " ++ duration ++ " (HH:MM:SS:CS)\n\n"
            ++ "----------------------------------------- CAPTURED LOGS -----------------------------------------\n"
            ++ COS.getLogContent this w ++ traceSection)] ∧
      exitStamp = COS.getTimestampForLog env (env.clock (w.envReads + 1)) ∧
      duration = COS.durationBuffer
        (elapsedMs (w.objects this).startTimePoint (env.clock w.envReads)) ∧
      (∀ n : Nat, n < 360000000 →
        elapsedMs (w.objects this).startTimePoint (env.clock w.envReads) = (n : Int) →
        duration = specDuration n) ∧
      ((COS.getStackTrace this w = "" ∧ traceSection = "") ∨
        (COS.getStackTrace this w ≠ "" ∧
          traceSection = " THE SIGNAL FAULT STACK TRACE :" ++ irs ++
            COS.getStackTrace this w ++ irs)) := by
  have h2 := (saveLog_of_unsaved env this exitReason w hunsaved).2.2.2
  unfold COS.getLogPath at hopen
  rw [if_pos hopen] at h2
  refine ⟨_, _, COS.traceSection (COS.getStackTrace this w), ?_, rfl, rfl, ?_, ?_⟩
  · rw [h2]
    simp [COS.logFileText, COS.logHeader, COS.getLogPath, COS.getExecutableName,
      COS.getStartTime, COS.getLogContent, COS.getStackTrace, String.append_assoc]
  · intro n hn hms
    rw [hms]
    exact durationBuffer_below_hundred_hours n hn
  · by_cases ht : COS.getStackTrace this w = ""
    · left
      exact ⟨ht, by simp [COS.traceSection, ht]⟩
    · right
      exact ⟨ht, by simp [COS.traceSection, ht]⟩

/-- C6 on the sample session: the session is unsaved, its file opens, and the file holds
the layout with an empty stack-trace section. -/
theorem saveLog_file_layout_witness :
    (World.sample.objects 1).logSaved = false ∧
    Env.sample.canOpen (COS.getLogPath 1 World.sample) = true ∧
    ∃ exitStamp duration traceSection : String,
      (COS.saveLog Env.sample 1 "Normal exit" World.sample).fileWrites =
        World.sample.fileWrites ++ [(COS.getLogPath 1 World.sample,
          "--------------------------------------------- DATA ----------------------------------------------\n"
            ++ "App: " ++ COS.getExecutableName 1 World.sample ++ "\n"
            ++ "Start: " ++ COS.getStartTime 1 World.sample ++ "\n"
            ++ "Exit: " ++ "Normal exit" ++ " at " ++ exitStamp ++ "\n"
            ++ "Duration: " ++ duration ++ " (HH:MM:SS:CS)\n\n"
            ++ "----------------------------------------- CAPTURED LOGS -----------------------------------------\n"
            ++ COS.getLogContent 1 World.sample ++ traceSection)] ∧
      exitStamp = COS.getTimestampForLog Env.sample (Env.sample.clock (World.sample.envReads + 1)) ∧
      duration = COS.durationBuffer
        (elapsedMs (World.sample.objects 1).startTimePoint
          (Env.sample.clock World.sample.envReads)) ∧
      (∀ n : Nat, n < 360000000 →
        elapsedMs (World.sample.objects 1).startTimePoint
          (Env.sample.clock World.sample.envReads) = (n : Int) →
        duration = specDuration n) ∧
      ((COS.getStackTrace 1 World.sample = "" ∧ traceSection = "") ∨
        (COS.getStackTrace 1 World.sample ≠ "" ∧
          traceSection = " THE SIGNAL FAULT STACK TRACE :" ++ irs ++
            COS.getStackTrace 1 World.sample ++ irs)) :=
  ⟨by decide, by decide,
    saveLog_file_layout Env.sample 1 "Normal exit" World.sample (by decide) (by decide)⟩

/-- C8, the claim as stated fails: on the sample session `SIGSEGV` is being handled by the
callback when `SIGABRT` is delivered; the process exits with 6, the number of the second
signal and not the original 11, and the capture phase has run a second time: the session's
stack trace is the one captured for `SIGABRT` (query 9), no longer the first (query 4). -/
theorem recursive_crash_original_number_counterexample :
    World.sampleWithCallback.globalInstance = some 1 ∧
    (World.sampleWithCallback.objects 1).crashCallback = some 0 ∧
    World.sampleWithCallback.g_crashHandlerActive = false ∧
    (COS.signalHandler Env.sample (appCallbacks Env.sample (.signal SIGABRT .finished))
      SIGSEGV World.sampleWithCallback).status = .exited 6 ∧
    (COS.signalHandler Env.sample (appCallbacks Env.sample (.signal SIGABRT .finished))
      SIGSEGV World.sampleWithCallback).status ≠ .exited SIGSEGV ∧
    ((COS.handleSignalCapture Env.sample 1 SIGSEGV World.sampleWithCallback).objects
      1).stackTrace = "f0\nquery 4\n" ∧
    ((COS.signalHandler Env.sample (appCallbacks Env.sample (.signal SIGABRT .finished))
      SIGSEGV World.sampleWithCallback).objects 1).stackTrace = "f0\nquery 9\n" := by
  refine ⟨rfl, rfl, rfl, ?_, ?_, ?_, ?_⟩
  · rfl
  · have h : (COS.signalHandler Env.sample
        (appCallbacks Env.sample (.signal SIGABRT .finished))
        SIGSEGV World.sampleWithCallback).status = .exited 6 := rfl
    rw [h]
    decide
  · rfl
  · rfl

/-- C8 as amended: if a signal `s2` is delivered while the callback
`handleApplicationCrash` is handling an earlier signal `s1`, `handleSignal` runs again for
`s2` (the banner is printed and the stack captured a second time), `saveLog` writes nothing
further, the callback's guard detects the recursion and the process exits with the number
of `s2`. -/
theorem recursive_crash_reenters_then_exits (env : Env) (this f : Nat) (s1 s2 : Int)
    (rest : DialogScript) (w : World) (hg : w.globalInstance = some this)
    (hcb : (w.objects this).crashCallback = some f)
    (hact : w.g_crashHandlerActive = false) :
    COS.signalHandler env (appCallbacks env (.signal s2 rest)) s1 w =
      (((COS.handleSignalBanner env this s2 (inCallback env this s1 w)).tick.write .cerr
        "Recursive crash detected, terminated.").endl .cerr).exit s2 ∧
    (COS.signalHandler env (appCallbacks env (.signal s2 rest)) s1 w).status = .exited s2 ∧
    ((COS.signalHandler env (appCallbacks env (.signal s2 rest)) s1 w).objects
      this).stackTrace = COS.captureStackTrace env ((inCallback env this s1 w).envReads + 1) ∧
    (COS.signalHandler env (appCallbacks env (.signal s2 rest)) s1 w).fileWrites =
      (inCallback env this s1 w).fileWrites := by
  have hfin := recursive_crash_final env this f s1 s2 rest w hg hcb hact
  obtain ⟨g1, g2, -, g4⟩ :=
    guard_exit_facts (COS.handleSignalBanner env this s2 (inCallback env this s1 w)) this s2
  obtain ⟨-, -, -, b4, -, -, -, b8, -⟩ :=
    handleSignalBanner_frame env this s2 (inCallback env this s1 w)
  rw [hfin]
  exact ⟨rfl, g1, g4.trans b8, g2.trans b4⟩

/-- C8 as amended, on the sample session: `SIGABRT` inside the callback for `SIGSEGV`. -/
theorem recursive_crash_reenters_then_exits_witness :
    World.sampleWithCallback.globalInstance = some 1 ∧
    (World.sampleWithCallback.objects 1).crashCallback = some 0 ∧
    World.sampleWithCallback.g_crashHandlerActive = false ∧
    (COS.signalHandler Env.sample (appCallbacks Env.sample (.signal SIGABRT .finished))
      SIGSEGV World.sampleWithCallback).status = .exited SIGABRT :=
  ⟨rfl, rfl, rfl,
    (recursive_crash_reenters_then_exits Env.sample 1 0 SIGSEGV SIGABRT .finished
      World.sampleWithCallback rfl rfl rfl).2.1⟩

set_option maxRecDepth 100000 in
/-- Searching the log file left by the sample restart from a callback finds no
`restart initiated`. -/
theorem sample_restart_log_search :
    ((COS.signalHandler Env.sample (fun _ _ v => COS.Tri_reset Env.sample v) SIGSEGV
      World.sampleWithCallback).readFile (COS.getLogPath 1 World.sampleWithCallback)).map
      (fun t => occursIn "restart initiated".data t.data) = some false := by
  rfl

/-- C10, the claim as stated fails: on the sample session the callback invoked for
`SIGSEGV` calls `Tri_reset`; the restart runs to its `_exit(0)`, the session's log file was
written exactly once, and the text `restart initiated` occurs nowhere in it. -/
theorem restart_from_callback_counterexample :
    World.sampleWithCallback.globalInstance = some 1 ∧
    (COS.signalHandler Env.sample (fun _ _ v => COS.Tri_reset Env.sample v) SIGSEGV
      World.sampleWithCallback).status = .exited 0 ∧
    (COS.signalHandler Env.sample (fun _ _ v => COS.Tri_reset Env.sample v) SIGSEGV
      World.sampleWithCallback).fileWrites.length = 1 ∧
    ¬ ∃ text : String,
      (COS.signalHandler Env.sample (fun _ _ v => COS.Tri_reset Env.sample v) SIGSEGV
        World.sampleWithCallback).readFile (COS.getLogPath 1 World.sampleWithCallback) =
          some text ∧
      Contains text "restart initiated" := by
  refine ⟨rfl, rfl, rfl, ?_⟩
  rintro ⟨text, hfile, hc⟩
  have hb := sample_restart_log_search
  rw [hfile] at hb
  have ho := occursIn_of_contains text "restart initiated" hc
  simp only [Option.map_some', Option.some.injEq] at hb
  rw [ho] at hb
  exact Bool.noConfusion hb

/-- C10 as amended: for every active session whose log has not been saved yet and whose
log file opens, after `Tri_reset` the log file holds the metadata block whose `Exit:` line
reads `Application restart initiated`, followed by the captured text and the trace
section, so the file contains `restart initiated`; when the log was already saved (as in
a crash callback, after `handleSignal` has saved it) `Tri_reset` writes no file. -/
theorem restart_persists_unsaved_log (env : Env) (this : Nat) (w : World)
    (hg : w.globalInstance = some this) :
    ((w.objects this).logSaved = false → env.canOpen (COS.getLogPath this w) = true →
      ∃ exitStamp duration traceSection text : String,
        (COS.Tri_reset env w).readFile (COS.getLogPath this w) = some text ∧
        text =
          "--------------------------------------------- DATA ----------------------------------------------\n"
            ++ "App: " ++ COS.getExecutableName this w ++ "\n"
            ++ "Start: " ++ COS.getStartTime this w ++ "\n"
            ++ "Exit: " ++ "Application restart initiated" ++ " at " ++ exitStamp ++ "\n"
            ++ "Duration: " ++ duration ++ " (HH:MM:SS:CS)\n\n"
            ++ "----------------------------------------- CAPTURED LOGS -----------------------------------------\n"
            ++ COS.getLogContent this w ++ traceSection ∧
        exitStamp = COS.getTimestampForLog env (env.clock (w.envReads + 1)) ∧
        duration = COS.durationBuffer
          (elapsedMs (w.objects this).startTimePoint (env.clock w.envReads)) ∧
        ((COS.getStackTrace this w = "" ∧ traceSection = "") ∨
          (COS.getStackTrace this w ≠ "" ∧
            traceSection = " THE SIGNAL FAULT STACK TRACE :" ++ irs ++
              COS.getStackTrace this w ++ irs)) ∧
        Contains text "restart initiated") ∧
    ((w.objects this).logSaved = true → (COS.Tri_reset env w).fileWrites = w.fileWrites) := by
  have hfw := Tri_reset_fileWrites env this w hg
  constructor
  · intro hunsaved hopen
    have h2 := (saveLog_of_unsaved env this "Application restart initiated" w hunsaved).2.2.2
    unfold COS.getLogPath at hopen
    rw [if_pos hopen] at h2
    have htext : COS.logFileText { w.objects this with logSaved := true }
          "Application restart initiated"
          (COS.getTimestampForLog env (env.clock (w.envReads + 1)))
          (COS.durationBuffer
            (elapsedMs (w.objects this).startTimePoint (env.clock w.envReads))) =
        "--------------------------------------------- DATA ----------------------------------------------\n"
          ++ "App: " ++ COS.getExecutableName this w ++ "\n"
          ++ "Start: " ++ COS.getStartTime this w ++ "\n"
          ++ "Exit: " ++ "Application restart initiated" ++ " at " ++
            COS.getTimestampForLog env (env.clock (w.envReads + 1)) ++ "\n"
          ++ "Duration: " ++ COS.durationBuffer
            (elapsedMs (w.objects this).startTimePoint (env.clock w.envReads)) ++
            " (HH:MM:SS:CS)\n\n"
          ++ "----------------------------------------- CAPTURED LOGS -----------------------------------------\n"
          ++ COS.getLogContent this w ++ COS.traceSection (COS.getStackTrace this w) := by
      simp only [COS.logFileText, COS.logHeader, COS.getExecutableName, COS.getStartTime,
        COS.getLogContent, COS.getStackTrace, String.append_assoc]
    rw [htext] at h2
    refine ⟨COS.getTimestampForLog env (env.clock (w.envReads + 1)),
      COS.durationBuffer (elapsedMs (w.objects this).startTimePoint (env.clock w.envReads)),
      COS.traceSection (COS.getStackTrace this w), _,
      readFile_of_last _ _ _ _ (hfw.trans h2), rfl, rfl, rfl, ?_, ?_⟩
    · by_cases ht : COS.getStackTrace this w = ""
      · left
        exact ⟨ht, by simp [COS.traceSection, ht]⟩
      · right
        exact ⟨ht, by simp [COS.traceSection, ht]⟩
    · have hsplit : "Application restart initiated" = "Application " ++ "restart initiated" := by
        decide
      refine ⟨"--------------------------------------------- DATA ----------------------------------------------\n"
          ++ "App: " ++ COS.getExecutableName this w ++ "\n"
          ++ "Start: " ++ COS.getStartTime this w ++ "\n"
          ++ "Exit: " ++ "Application ",
        " at " ++ COS.getTimestampForLog env (env.clock (w.envReads + 1)) ++ "\n"
          ++ "Duration: " ++ COS.durationBuffer
            (elapsedMs (w.objects this).startTimePoint (env.clock w.envReads)) ++
            " (HH:MM:SS:CS)\n\n"
          ++ "----------------------------------------- CAPTURED LOGS -----------------------------------------\n"
          ++ COS.getLogContent this w ++ COS.traceSection (COS.getStackTrace this w), ?_⟩
      rw [hsplit]
      simp only [String.append_assoc]
  · intro hsaved
    rw [hfw, saveLog_of_saved env this _ w hsaved]

/-- C10 as amended, on the sample session restarted outside any callback. -/
theorem restart_persists_unsaved_log_witness :
    World.sample.globalInstance = some 1 ∧ (World.sample.objects 1).logSaved = false ∧
    Env.sample.canOpen (COS.getLogPath 1 World.sample) = true ∧
    ∃ exitStamp duration traceSection text : String,
        (COS.Tri_reset Env.sample World.sample).readFile (COS.getLogPath 1 World.sample) = some text ∧
        text =
          "--------------------------------------------- DATA ----------------------------------------------\n"
            ++ "App: " ++ COS.getExecutableName 1 World.sample ++ "\n"
            ++ "Start: " ++ COS.getStartTime 1 World.sample ++ "\n"
            ++ "Exit: " ++ "Application restart initiated" ++ " at " ++ exitStamp ++ "\n"
            ++ "Duration: " ++ duration ++ " (HH:MM:SS:CS)\n\n"
            ++ "----------------------------------------- CAPTURED LOGS -----------------------------------------\n"
            ++ COS.getLogContent 1 World.sample ++ traceSection ∧
        exitStamp = COS.getTimestampForLog Env.sample (Env.sample.clock (World.sample.envReads + 1)) ∧
        duration = COS.durationBuffer
          (elapsedMs (World.sample.objects 1).startTimePoint (Env.sample.clock World.sample.envReads)) ∧
        ((COS.getStackTrace 1 World.sample = "" ∧ traceSection = "") ∨
          (COS.getStackTrace 1 World.sample ≠ "" ∧
            traceSection = " THE SIGNAL FAULT STACK TRACE :" ++ irs ++
              COS.getStackTrace 1 World.sample ++ irs)) ∧
        Contains text "restart initiated" :=
  ⟨rfl, rfl, rfl, (restart_persists_unsaved_log Env.sample 1 World.sample rfl).1 rfl rfl⟩

/-- C7: for a duration of at least 0 and less than 360,000,000 ms `getFormattedDuration`
returns the 11-character text `HH:MM:SS:CS` whose two-digit zero-padded fields are
`ms/3600000`, `(ms/60000) mod 60`, `(ms/1000) mod 60` and `(ms/10) mod 100`; 3,725,430 ms
gives `01:02:05:43` and 0 ms gives `00:00:00:00`. -/
theorem getFormattedDuration_below_hundred_hours (info : CrashInfo) :
    (0 ≤ info.sessionDurationMs → info.sessionDurationMs < 360000000 →
      info.getFormattedDuration = specDuration info.sessionDurationMs.toNat ∧
      info.getFormattedDuration.length = 11) ∧
    (info.sessionDurationMs = 3725430 → info.getFormattedDuration = "01:02:05:43") ∧
    (info.sessionDurationMs = 0 → info.getFormattedDuration = "00:00:00:00") := by
  have key : ∀ n : Nat, n < 360000000 → info.sessionDurationMs = (n : Int) →
      info.getFormattedDuration = specDuration n ∧ info.getFormattedDuration.length = 11 := by
    intro n hn hms
    have hlen : (fmtDuration ((n / 3600000 : Nat) : Int) ((n / 60000 % 60 : Nat) : Int)
        ((n / 1000 % 60 : Nat) : Int) ((n / 10 % 100 : Nat) : Int)).length = 11 := by
      have h1 : n / 3600000 < 100 := by omega
      have h2 : n / 60000 % 60 < 100 := by omega
      have h3 : n / 1000 % 60 < 100 := by omega
      have h4 : n / 10 % 100 < 100 := by omega
      unfold fmtDuration
      rw [fmt02lld_of_lt_hundred _ h1, fmt02lld_of_lt_hundred _ h2,
        fmt02lld_of_lt_hundred _ h3, fmt02lld_of_lt_hundred _ h4]
      rfl
    have hval : info.getFormattedDuration = specDuration n := by
      unfold CrashInfo.getFormattedDuration snprintf
      simp only [hms]
      rw [fmtDuration_fields n, List.take_of_length_le (by rw [hlen])]
      exact fmtDuration_lt_hundred_hours n hn
    refine ⟨hval, ?_⟩
    unfold CrashInfo.getFormattedDuration snprintf
    simp only [hms]
    rw [fmtDuration_fields n, List.take_of_length_le (by rw [hlen])]
    exact hlen
  refine ⟨?_, ?_, ?_⟩
  · intro h0 h1
    have hn : info.sessionDurationMs = (info.sessionDurationMs.toNat : Int) :=
      (Int.toNat_of_nonneg h0).symm
    exact key _ (by omega) hn
  · intro h
    have := (key 3725430 (by norm_num) (by rw [h]; rfl)).1
    rw [this]; decide
  · intro h
    have := (key 0 (by norm_num) (by rw [h]; rfl)).1
    rw [this]; decide

/-- C7 at 3,725,430 ms. -/
theorem getFormattedDuration_below_hundred_hours_witness :
    ((0 : Int) ≤ 3725430 → (3725430 : Int) < 360000000 →
      (CrashInfo.ofDuration 3725430).getFormattedDuration = specDuration 3725430 ∧
      (CrashInfo.ofDuration 3725430).getFormattedDuration.length = 11) ∧
    ((3725430 : Int) = 3725430 →
      (CrashInfo.ofDuration 3725430).getFormattedDuration = "01:02:05:43") ∧
    ((3725430 : Int) = 0 →
      (CrashInfo.ofDuration 3725430).getFormattedDuration = "00:00:00:00") :=
  getFormattedDuration_below_hundred_hours (CrashInfo.ofDuration 3725430)

/-! ### Restart when `fork` fails -/

set_option maxRecDepth 100000 in
/-- Searching the log file left by the sample restart with a failing `fork` finds no
`Failed to fork for restart`. -/
theorem sample_failed_fork_log_search :
    ((COS.Tri_reset Env.sampleForkFails World.sample).readFile
      (COS.getLogPath 1 World.sample)).map
      (fun t => occursIn "Failed to fork for restart".data t.data) = some false := by
  rfl

/-- C11, the code at the failing input: on the sample session `fork()` returns `-1` during
`Tri_reset`. Control reaches `Tri_term` and the process exits with status 0, but the log
file was written exactly once, by the first `saveLog`, with the exit reason
`Application restart initiated`; the later `saveLog("Failed to fork for restart")` finds
`logSaved` already set and writes nothing, so that text occurs nowhere in the file. -/
theorem failed_fork_is_not_logged :
    World.sample.globalInstance = some 1 ∧
    Env.sampleForkFails.forkResult World.sample.envReads < 0 ∧
    (COS.Tri_reset Env.sampleForkFails World.sample).status = .exited 0 ∧
    (COS.Tri_reset Env.sampleForkFails World.sample).fileWrites =
      (COS.saveLog Env.sampleForkFails 1 "Application restart initiated"
        World.sample).fileWrites ∧
    (COS.Tri_reset Env.sampleForkFails World.sample).fileWrites.length = 1 ∧
    ¬ ∃ text : String,
      (COS.Tri_reset Env.sampleForkFails World.sample).readFile
        (COS.getLogPath 1 World.sample) = some text ∧
      Contains text "Failed to fork for restart" := by
  refine ⟨rfl, by decide, rfl, rfl, rfl, ?_⟩
  rintro ⟨text, hfile, hc⟩
  have hb := sample_failed_fork_log_search
  rw [hfile] at hb
  have ho := occursIn_of_contains text "Failed to fork for restart" hc
  simp only [Option.map_some', Option.some.injEq] at hb
  rw [ho] at hb
  exact Bool.noConfusion hb

/-! ### The three duration renderers -/

theorem qstringArg_of_lt_hundred (n : Nat) (h : n < 100) :
    qstringArg (n : Int) 2 '0' = [Nat.digitChar (n / 10), Nat.digitChar (n % 10)] := by
  interval_cases n <;> rfl

/-- Below one hundred hours the dialog's timer text is the spec's text. -/
theorem timerDisplay_below_hundred_hours (n : Nat) (h : n < 360000000) :
    COSEC.timerDisplay (n : Int) = specDuration n := by
  have hn : (0 : Int) ≤ (n : Int) := Int.ofNat_nonneg n
  have d1 : (n : Int).tdiv (1000 * 60 * 60) = ((n / 3600000 : Nat) : Int) := by
    rw [Int.tdiv_eq_ediv hn (by norm_num)]; omega
  have d2 : ((n : Int).tdiv (1000 * 60)).tmod 60 = ((n / 60000 % 60 : Nat) : Int) := by
    rw [Int.tdiv_eq_ediv hn (by norm_num), Int.tmod_eq_emod (by omega) (by norm_num)]; omega
  have d3 : ((n : Int).tdiv 1000).tmod 60 = ((n / 1000 % 60 : Nat) : Int) := by
    rw [Int.tdiv_eq_ediv hn (by norm_num), Int.tmod_eq_emod (by omega) (by norm_num)]; omega
  have d4 : ((n : Int).tdiv 10).tmod 100 = ((n / 10 % 100 : Nat) : Int) := by
    rw [Int.tdiv_eq_ediv hn (by norm_num), Int.tmod_eq_emod (by omega) (by norm_num)]; omega
  have h1 : n / 3600000 < 100 := by omega
  have h2 : n / 60000 % 60 < 100 := by omega
  have h3 : n / 1000 % 60 < 100 := by omega
  have h4 : n / 10 % 100 < 100 := by omega
  unfold COSEC.timerDisplay specDuration twoDigits
  simp only []
  rw [d1, d2, d3, d4, qstringArg_of_lt_hundred _ h1, qstringArg_of_lt_hundred _ h2,
    qstringArg_of_lt_hundred _ h3, qstringArg_of_lt_hundred _ h4]
  rfl

/-- Below one hundred hours the three renderers agree. -/
theorem duration_renderers_agree_below_hundred_hours (info : CrashInfo) (n : Nat)
    (h : n < 360000000) (hms : info.sessionDurationMs = (n : Int)) :
    info.getFormattedDuration = COS.durationBuffer info.sessionDurationMs ∧
    COS.durationBuffer info.sessionDurationMs = COSEC.timerDisplay info.sessionDurationMs := by
  have hlen : (fmtDuration ((n / 3600000 : Nat) : Int) ((n / 60000 % 60 : Nat) : Int)
      ((n / 1000 % 60 : Nat) : Int) ((n / 10 % 100 : Nat) : Int)).length = 11 := by
    have h1 : n / 3600000 < 100 := by omega
    have h2 : n / 60000 % 60 < 100 := by omega
    have h3 : n / 1000 % 60 < 100 := by omega
    have h4 : n / 10 % 100 < 100 := by omega
    unfold fmtDuration
    rw [fmt02lld_of_lt_hundred _ h1, fmt02lld_of_lt_hundred _ h2,
      fmt02lld_of_lt_hundred _ h3, fmt02lld_of_lt_hundred _ h4]
    rfl
  have hg : info.getFormattedDuration = specDuration n := by
    unfold CrashInfo.getFormattedDuration snprintf
    simp only [hms]
    rw [fmtDuration_fields n, List.take_of_length_le (by rw [hlen])]
    exact fmtDuration_lt_hundred_hours n h
  rw [hg, hms, durationBuffer_below_hundred_hours n h, timerDisplay_below_hundred_hours n h]
  exact ⟨rfl, rfl⟩

/-- C14, the code at the failing input: for a session of exactly 100 hours
(360,000,000 ms) the `Duration:` field of `saveLog` and the dialog's timer text are both
`100:00:00:00`, while `getFormattedDuration`, whose buffer holds 12 bytes, returns the
first 11 characters only, `100:00:00:0`. -/
theorem duration_renderers_disagree_at_hundred_hours :
    (CrashInfo.ofDuration 360000000).getFormattedDuration = "100:00:00:0" ∧
    COS.durationBuffer (CrashInfo.ofDuration 360000000).sessionDurationMs = "100:00:00:00" ∧
    COSEC.timerDisplay (CrashInfo.ofDuration 360000000).sessionDurationMs = "100:00:00:00" ∧
    (CrashInfo.ofDuration 360000000).getFormattedDuration ≠
      COS.durationBuffer (CrashInfo.ofDuration 360000000).sessionDurationMs := by
  have h1 : (CrashInfo.ofDuration 360000000).getFormattedDuration = "100:00:00:0" := by
    decide
  have h2 : COS.durationBuffer (CrashInfo.ofDuration 360000000).sessionDurationMs =
      "100:00:00:00" := by decide
  have h3 : COSEC.timerDisplay (CrashInfo.ofDuration 360000000).sessionDurationMs =
      "100:00:00:00" := by decide
  refine ⟨h1, h2, h3, ?_⟩
  rw [h1, h2]
  decide

/-! ### Destruction -/

theorem dtor_of_saved (env : Env) (this : Nat) (w : World)
    (h : (w.objects this).logSaved = true) :
    (COS.dtor env this w).fileWrites = w.fileWrites ∧
    (COS.dtor env this w).coutBuf = (w.objects this).originalCoutBuffer ∧
    (COS.dtor env this w).cerrBuf = (w.objects this).originalCerrBuffer ∧
    (COS.dtor env this w).globalInstance =
      (if w.globalInstance = some this then none else w.globalInstance) ∧
    (COS.dtor env this w).live = Function.update w.live this false ∧
    (COS.dtor env this w).status = w.status := by
  by_cases hg : w.globalInstance = some this
  · simp [COS.dtor, h, hg]
  · simp [COS.dtor, h, hg]

theorem dtor_of_unsaved (env : Env) (this : Nat) (w : World)
    (h : (w.objects this).logSaved = false) :
    (COS.dtor env this w).fileWrites = (COS.saveLog env this "Normal exit" w).fileWrites ∧
    (COS.dtor env this w).coutBuf = (w.objects this).originalCoutBuffer ∧
    (COS.dtor env this w).cerrBuf = (w.objects this).originalCerrBuffer ∧
    (COS.dtor env this w).globalInstance =
      (if w.globalInstance = some this then none else w.globalInstance) ∧
    (COS.dtor env this w).live = Function.update w.live this false ∧
    (COS.dtor env this w).status = w.status := by
  obtain ⟨o1, -, -, -⟩ := saveLog_of_unsaved env this "Normal exit" w h
  obtain ⟨f1, f2, -, f4, -⟩ := saveLog_frame env this "Normal exit" w
  by_cases hg : w.globalInstance = some this
  · simp [COS.dtor, h, hg, o1, f1, f2, f4]
  · simp [COS.dtor, h, hg, o1, f1, f2, f4]

/-- What the destructor does: it writes nothing for a saved session and, for an unsaved
one whose file opens, the one log whose `Exit:` line reads `Normal exit`; it restores the
destinations the session remembered and clears the singleton reference exactly when it
points to the destroyed instance. -/
theorem dtor_effects (env : Env) (this : Nat) (w : World) :
    ((w.objects this).logSaved = true →
      (COS.dtor env this w).fileWrites = w.fileWrites) ∧
    ((w.objects this).logSaved = false → env.canOpen (COS.getLogPath this w) = true →
      ∃ exitStamp duration : String,
        (COS.dtor env this w).fileWrites = w.fileWrites ++ [(COS.getLogPath this w,
          "--------------------------------------------- DATA ----------------------------------------------\n"
            ++ "App: " ++ COS.getExecutableName this w ++ "\n"
            ++ "Start: " ++ COS.getStartTime this w ++ "\n"
            ++ "Exit: " ++ "Normal exit" ++ " at " ++ exitStamp ++ "\n"
            ++ "Duration: " ++ duration ++ " (HH:MM:SS:CS)\n\n"
            ++ "----------------------------------------- CAPTURED LOGS -----------------------------------------\n"
            ++ COS.getLogContent this w ++ COS.traceSection (COS.getStackTrace this w))]) ∧
    (COS.dtor env this w).coutBuf = (w.objects this).originalCoutBuffer ∧
    (COS.dtor env this w).cerrBuf = (w.objects this).originalCerrBuffer ∧
    (w.globalInstance = some this → (COS.dtor env this w).globalInstance = none) ∧
    (w.globalInstance ≠ some this →
      (COS.dtor env this w).globalInstance = w.globalInstance) ∧
    (COS.dtor env this w).live this = false := by
  have hd : (COS.dtor env this w).coutBuf = (w.objects this).originalCoutBuffer ∧
      (COS.dtor env this w).cerrBuf = (w.objects this).originalCerrBuffer ∧
      (COS.dtor env this w).globalInstance =
        (if w.globalInstance = some this then none else w.globalInstance) ∧
      (COS.dtor env this w).live = Function.update w.live this false := by
    by_cases h : (w.objects this).logSaved = true
    · obtain ⟨-, a2, a3, a4, a5, -⟩ := dtor_of_saved env this w h
      exact ⟨a2, a3, a4, a5⟩
    · obtain ⟨-, a2, a3, a4, a5, -⟩ := dtor_of_unsaved env this w (by simpa using h)
      exact ⟨a2, a3, a4, a5⟩
  obtain ⟨d1, d2, d3, d4⟩ := hd
  refine ⟨fun h => (dtor_of_saved env this w h).1, ?_, d1, d2, ?_, ?_, ?_⟩
  · intro h hopen
    have h2 := (saveLog_of_unsaved env this "Normal exit" w h).2.2.2
    unfold COS.getLogPath at hopen
    rw [if_pos hopen] at h2
    refine ⟨COS.getTimestampForLog env (env.clock (w.envReads + 1)),
      COS.durationBuffer (elapsedMs (w.objects this).startTimePoint (env.clock w.envReads)),
      ?_⟩
    rw [(dtor_of_unsaved env this w h).1, h2]
    simp only [COS.logFileText, COS.logHeader, COS.getExecutableName, COS.getStartTime,
      COS.getLogContent, COS.getStackTrace, COS.getLogPath, String.append_assoc]
  · intro hg
    rw [d3, if_pos hg]
  · intro hg
    rw [d3, if_neg hg]
  · rw [d4]
    exact Function.update_same _ _ _

/-- On an active session that `new` created, `Tri_term` runs the destructor, leaves no
singleton reference and exits with status 0; on one with automatic storage it runs the
destructor and then reaches undefined behaviour instead of the exit. -/
theorem Tri_term_effects (env : Env) (this : Nat) (w : World)
    (hg : w.globalInstance = some this) :
    (w.automatic this = false →
      (COS.Tri_term env w).status = .exited 0 ∧
      (COS.Tri_term env w).globalInstance = none ∧
      (COS.Tri_term env w).fileWrites = (COS.dtor env this w).fileWrites ∧
      (COS.Tri_term env w).coutBuf = (w.objects this).originalCoutBuffer ∧
      (COS.Tri_term env w).cerrBuf = (w.objects this).originalCerrBuffer) ∧
    (w.automatic this = true →
      (COS.Tri_term env w).status = .undefined ∧
      (COS.Tri_term env w).fileWrites = (COS.dtor env this w).fileWrites) := by
  have hsame : COS.dtor env this
      { w with handled := w.handled.filter (fun sig => sig ∉ interceptedSignals) } =
      { COS.dtor env this w with
        handled := w.handled.filter (fun sig => sig ∉ interceptedSignals) } := by
    by_cases h : (w.objects this).logSaved = true
    · simp [COS.dtor, h, hg]
    · by_cases hopen : env.canOpen (w.objects this).logPath = true
      · simp [COS.dtor, h, hg, COS.saveLog, hopen, World.setObject, World.setBuffers,
          World.tick, World.appendFile]
      · simp [COS.dtor, h, hg, COS.saveLog, hopen, World.setObject, World.setBuffers,
          World.tick, World.appendFile]
  obtain ⟨-, -, d1, d2, -⟩ := dtor_effects env this w
  constructor
  · intro ha
    have hterm : COS.Tri_term env w =
        ({ COS.dtor env this
            { w with handled := w.handled.filter (fun sig => sig ∉ interceptedSignals) } with
          globalInstance := none } : World).exit 0 := by
      simp [COS.Tri_term, hg, ha]
    rw [hterm, hsame]
    exact ⟨rfl, rfl, rfl, d1, d2⟩
  · intro ha
    have hterm : COS.Tri_term env w =
        { COS.dtor env this
            { w with handled := w.handled.filter (fun sig => sig ∉ interceptedSignals) } with
          status := .undefined } := by
      simp [COS.Tri_term, hg, ha]
    rw [hterm, hsame]
    exact ⟨rfl, rfl⟩

set_option maxRecDepth 100000 in
/-- The one file `Tri_term` leaves on the session of `main`. -/
theorem mainSession_Tri_term_file :
    (COS.Tri_term Env.sample World.mainSession).fileWrites =
      [("/tmp/demo_at0.log",
        "--------------------------------------------- DATA ----------------------------------------------\n"
          ++ "App: demo\n" ++ "Start: day 500\n" ++ "Exit: Normal exit at day 1000\n"
          ++ "Duration: 00:00:00:50 (HH:MM:SS:CS)\n\n"
          ++ "----------------------------------------- CAPTURED LOGS -----------------------------------------\n"
          ++ "COS: /tmp/demo_at0.log\n")] := by
  rfl

/-- C12, the code at the failing input: `main` of `cosec.cpp` declares `COS logger;`, an
object with automatic storage, which becomes the active session. When `Tri_term` is called,
`delete globalInstance` runs the destructor (the log whose `Exit:` line reads
`Normal exit` is written, the console destinations are restored, the singleton reference
is cleared) and then hands storage that `new` never gave out to `operator delete`: the
behaviour is undefined and the `_exit(0)` that follows is not reached as an exit with
status 0. -/
theorem Tri_term_on_automatic_session :
    World.mainSession.globalInstance = some 1 ∧
    World.mainSession.automatic 1 = true ∧
    (World.mainSession.objects 1).logSaved = false ∧
    (COS.Tri_term Env.sample World.mainSession).status = .undefined ∧
    (COS.Tri_term Env.sample World.mainSession).status ≠ .exited 0 ∧
    (COS.Tri_term Env.sample World.mainSession).fileWrites =
      [("/tmp/demo_at0.log",
        "--------------------------------------------- DATA ----------------------------------------------\n"
          ++ "App: demo\n" ++ "Start: day 500\n" ++ "Exit: Normal exit at day 1000\n"
          ++ "Duration: 00:00:00:50 (HH:MM:SS:CS)\n\n"
          ++ "----------------------------------------- CAPTURED LOGS -----------------------------------------\n"
          ++ "COS: /tmp/demo_at0.log\n")] ∧
    (COS.Tri_term Env.sample World.mainSession).coutBuf = .stdoutFile ∧
    (COS.Tri_term Env.sample World.mainSession).cerrBuf = .stderrFile ∧
    (COS.Tri_term Env.sample World.mainSession).globalInstance = none := by
  have h : (COS.Tri_term Env.sample World.mainSession).status = .undefined := rfl
  refine ⟨rfl, rfl, rfl, h, ?_, mainSession_Tri_term_file, rfl, rfl, rfl⟩
  rw [h]
  decide

/-! ### The singleton reference over constructions and destructions -/

theorem ctor_frame (env : Env) (this : Nat) (w : World) :
    (COS.ctor env this w).globalInstance = some this ∧
    (COS.ctor env this w).live = Function.update w.live this true ∧
    (COS.ctor env this w).fileWrites = w.fileWrites ∧
    (COS.ctor env this w).status = w.status ∧
    (∀ o, o ≠ this → COS.SameButCapture (w.objects o) ((COS.ctor env this w).objects o)) := by
  let w2 : World := COS.setupSignalHandlers
    { w.setObject this (COS.fresh env this w) with
      live := Function.update w.live this true,
      coutBuf := (COS.fresh env this w).coutBuffer, cerrBuf := (COS.fresh env this w).cerrBuffer,
      globalInstance := some this, envReads := w.envReads + 3 }
  have hctor : COS.ctor env this w =
      ((w2.write .cout "COS: ").write .cout (COS.fresh env this w).logPath).endl .cout := rfl
  have h1 := write_onlyOutput w2 .cout "COS: "
  have h2 := write_onlyOutput (w2.write .cout "COS: ") .cout (COS.fresh env this w).logPath
  have h3 := endl_onlyOutput
    ((w2.write .cout "COS: ").write .cout (COS.fresh env this w).logPath) .cout
  obtain ⟨-, -, a3, a4, -, a6, a7, -, -, a10⟩ := onlyOutput_trans (onlyOutput_trans h1 h2) h3
  rw [hctor]
  refine ⟨a3, a7, a4, a6, ?_⟩
  intro o ho
  have hw2 : w2.objects o = w.objects o := by
    simp [w2, COS.setupSignalHandlers, World.setObject, Function.update_noteq ho]
  have := a10 o
  rw [hw2] at this
  exact this

theorem tracks_ctor (env : Env) (addr : Nat) (w : World) (h : w.Tracks none) :
    (COS.ctor env addr w).Tracks (some addr) := by
  obtain ⟨c1, c2, -⟩ := ctor_frame env addr w
  refine ⟨c1, ?_⟩
  intro a
  rw [c2]
  by_cases ha : a = addr
  · subst ha
    simp
  · rw [Function.update_noteq ha]
    have := (h.2 a)
    constructor
    · intro hl
      exact absurd (this.mp hl) (by simp)
    · intro he
      exact absurd (Option.some.inj he).symm ha

theorem dtor_globalInstance_live (env : Env) (this : Nat) (w : World) :
    (COS.dtor env this w).globalInstance =
      (if w.globalInstance = some this then none else w.globalInstance) ∧
    (COS.dtor env this w).live = Function.update w.live this false := by
  by_cases h : (w.objects this).logSaved = true
  · obtain ⟨-, -, -, a4, a5, -⟩ := dtor_of_saved env this w h
    exact ⟨a4, a5⟩
  · obtain ⟨-, -, -, a4, a5, -⟩ := dtor_of_unsaved env this w (by simpa using h)
    exact ⟨a4, a5⟩

theorem tracks_dtor (env : Env) (addr : Nat) (w : World) (h : w.Tracks (some addr)) :
    (COS.dtor env addr w).Tracks none := by
  obtain ⟨d1, d2⟩ := dtor_globalInstance_live env addr w
  refine ⟨?_, ?_⟩
  · rw [d1, if_pos h.1]
  · intro a
    rw [d2]
    by_cases ha : a = addr
    · subst ha
      simp
    · rw [Function.update_noteq ha]
      have := h.2 a
      constructor
      · intro hl
        exact absurd (Option.some.inj (this.mp hl)).symm ha
      · intro he
        exact absurd he (by simp)

theorem tracks_runLife (env : Env) (ops : List LifeOp) (cur last : Option Nat) (w : World)
    (hseq : sequentialFrom cur ops = some last) (h : w.Tracks cur) :
    (runLife env ops w).Tracks last := by
  induction ops generalizing cur w with
  | nil =>
    simp only [sequentialFrom, Option.some.injEq] at hseq
    subst hseq
    exact h
  | cons op rest ih =>
    have hrun : runLife env (op :: rest) w = runLife env rest (op.run env w) := rfl
    rw [hrun]
    cases cur with
    | none =>
      cases op with
      | construct addr =>
        exact ih (some addr) _ hseq (tracks_ctor env addr w h)
      | destroy addr => simp [sequentialFrom] at hseq
    | some a =>
      cases op with
      | construct addr => simp [sequentialFrom] at hseq
      | destroy addr =>
        simp only [sequentialFrom] at hseq
        by_cases hab : a = addr
        · subst hab
          rw [if_pos rfl] at hseq
          exact ih none _ hseq (tracks_dtor env a w h)
        · rw [if_neg hab] at hseq
          exact absurd hseq (by simp)

theorem sequentialFrom_take (ops : List LifeOp) (cur last : Option Nat) (k : Nat)
    (hseq : sequentialFrom cur ops = some last) :
    ∃ mid, sequentialFrom cur (ops.take k) = some mid := by
  induction ops generalizing cur k with
  | nil => exact ⟨cur, by simp [sequentialFrom]⟩
  | cons op rest ih =>
    cases k with
    | zero => exact ⟨cur, by simp [sequentialFrom]⟩
    | succ k =>
      cases cur with
      | none =>
        cases op with
        | construct addr => exact ih (some addr) k hseq
        | destroy addr => simp [sequentialFrom] at hseq
      | some a =>
        cases op with
        | construct addr => simp [sequentialFrom] at hseq
        | destroy addr =>
          simp only [sequentialFrom] at hseq
          by_cases hab : a = addr
          · subst hab
            rw [if_pos rfl] at hseq
            obtain ⟨mid, hmid⟩ := ih none k hseq
            exact ⟨mid, by simp [sequentialFrom, hmid]⟩
          · rw [if_neg hab] at hseq
            exact absurd hseq (by simp)

theorem singletonInvariant_of_tracks (w : World) (cur : Option Nat) (h : w.Tracks cur) :
    w.SingletonInvariant := by
  refine ⟨?_, ?_⟩
  · intro a ha
    rw [h.1]
    exact (h.2 a).mp ha
  · intro a ha
    exact (h.2 a).mpr (h.1.symm.trans ha)

/-- C13: over every strictly sequential sequence of constructions and destructions (each
session destroyed before the next is constructed), at every instant the singleton reference
points to the session alive, no other session is alive, and the reference is empty when
none is; and constructing a session at `b` while another at `a` is alive makes the
singleton reference point to `b` and leaves `a` alive, undestroyed: its saved flag is
unchanged and no log is written. -/
theorem singleton_discipline (env : Env) (ops : List LifeOp) (cur last : Option Nat)
    (w v : World) (a b : Nat) :
    (sequentialFrom cur ops = some last → w.Tracks cur →
      (∀ k, (runLife env (ops.take k) w).SingletonInvariant) ∧
      (runLife env ops w).Tracks last) ∧
    (v.live a = true → a ≠ b →
      (COS.ctor env b v).globalInstance = some b ∧
      (COS.ctor env b v).live a = true ∧
      (COS.ctor env b v).live b = true ∧
      ((COS.ctor env b v).objects a).logSaved = (v.objects a).logSaved ∧
      (COS.ctor env b v).fileWrites = v.fileWrites) := by
  constructor
  · intro hseq h0
    refine ⟨?_, tracks_runLife env ops cur last w hseq h0⟩
    intro k
    obtain ⟨mid, hmid⟩ := sequentialFrom_take ops cur last k hseq
    exact singletonInvariant_of_tracks _ mid (tracks_runLife env _ cur mid w hmid h0)
  · intro hlive hne
    obtain ⟨c1, c2, c3, -, c5⟩ := ctor_frame env b v
    refine ⟨c1, ?_, ?_, ?_, c3⟩
    · rw [c2, Function.update_noteq hne]
      exact hlive
    · rw [c2]
      exact Function.update_same _ _ _
    · exact (sameButCapture_fields (c5 a hne)).2.2.2.1

/-- C13 on the sample lifetimes run in a fresh process, and on a second session built at
address 2 while the sample session at address 1 is alive. -/
theorem singleton_discipline_witness :
    sequentialFrom none sampleLife = some (some 2) ∧ World.start.Tracks none ∧
    World.sample.live 1 = true ∧ (1 : Nat) ≠ 2 ∧
    (runLife Env.sample sampleLife World.start).Tracks (some 2) ∧
    (COS.ctor Env.sample 2 World.sample).globalInstance = some 2 ∧
    (COS.ctor Env.sample 2 World.sample).live 1 = true :=
  ⟨rfl, ⟨rfl, fun a => ⟨fun h => Bool.noConfusion h, fun h => Option.noConfusion h⟩⟩, rfl,
    by decide,
    ((singleton_discipline Env.sample sampleLife none (some 2) World.start World.sample 1 2).1
      rfl ⟨rfl, fun a => ⟨fun h => Bool.noConfusion h, fun h => Option.noConfusion h⟩⟩).2,
    ((singleton_discipline Env.sample sampleLife none (some 2) World.start World.sample 1 2).2
      rfl (by decide)).1,
    ((singleton_discipline Env.sample sampleLife none (some 2) World.start World.sample 1 2).2
      rfl (by decide)).2.1⟩

/-! ### Writes once the tees are detached -/

theorem write_on_console (u : World) (st : Stream) (s : String)
    (hc : u.coutBuf = .stdoutFile) (he : u.cerrBuf = .stderrFile) :
    (u.write st s).objects = u.objects ∧
    (u.write st s).stdoutText = u.stdoutText ++ (if st = .cout then s else "") ∧
    (u.write st s).stderrText = u.stderrText ++ (if st = .cerr then s else "") ∧
    (u.write st s).coutBuf = .stdoutFile ∧ (u.write st s).cerrBuf = .stderrFile := by
  cases st
  · simp [World.write, World.rdbuf, hc, he, StreamBuf.sputn]
  · simp [World.write, World.rdbuf, hc, he, StreamBuf.sputn]

theorem runWrites_on_console (ops : List WriteOp) (u : World)
    (hc : u.coutBuf = .stdoutFile) (he : u.cerrBuf = .stderrFile) :
    (runWrites ops u).objects = u.objects ∧
    (runWrites ops u).stdoutText =
      u.stdoutText ++ String.join (ops.map (WriteOp.bytesOn .cout)) ∧
    (runWrites ops u).stderrText =
      u.stderrText ++ String.join (ops.map (WriteOp.bytesOn .cerr)) := by
  induction ops generalizing u with
  | nil => simp [runWrites, String.join]
  | cons op rest ih =>
    have hop : op.run u = u.write op.stream op.bytes := by
      cases op with
      | char st c => exact put_eq_write u st c
      | block st t => rfl
    have hrun : runWrites (op :: rest) u = runWrites rest (op.run u) := rfl
    obtain ⟨w1, w2, w3, w4, w5⟩ := write_on_console u op.stream op.bytes hc he
    obtain ⟨i1, i2, i3⟩ := ih (u.write op.stream op.bytes) w4 w5
    refine ⟨?_, ?_, ?_⟩
    · rw [hrun, hop, i1, w1]
    · rw [hrun, hop, i2, w2]
      simp only [List.map_cons, join_cons, WriteOp.bytesOn, String.append_assoc]
    · rw [hrun, hop, i3, w3]
      simp only [List.map_cons, join_cons, WriteOp.bytesOn, String.append_assoc]

/-- After `saveLog` both streams write to the real console, provided the session
remembered the real console and a saved session is one already detached. -/
theorem saveLog_detaches (env : Env) (this : Nat) (r : String) (w : World)
    (hcout : (w.objects this).originalCoutBuffer = .stdoutFile)
    (hcerr : (w.objects this).originalCerrBuffer = .stderrFile)
    (hdet : (w.objects this).logSaved = true →
      w.coutBuf = .stdoutFile ∧ w.cerrBuf = .stderrFile) :
    (COS.saveLog env this r w).coutBuf = .stdoutFile ∧
    (COS.saveLog env this r w).cerrBuf = .stderrFile := by
  by_cases h : (w.objects this).logSaved = true
  · rw [saveLog_of_saved env this r w h]
    exact hdet h
  · obtain ⟨-, a2, a3, -⟩ := saveLog_of_unsaved env this r w (by simpa using h)
    exact ⟨a2.trans hcout, a3.trans hcerr⟩

/-- The file the capture phase writes holds, between header and trace section, the text
the session has captured when the callback is invoked. -/
theorem handleSignalCapture_file_content (env : Env) (this : Nat) (sigNum : Int) (w : World)
    (hunsaved : (w.objects this).logSaved = false)
    (hopen : env.canOpen (w.objects this).logPath = true) :
    (COS.handleSignalCapture env this sigNum w).fileWrites =
      w.fileWrites ++ [((w.objects this).logPath,
        COS.logHeader (w.objects this).executableName (w.objects this).startTime
            ("Crashed: " ++ COS.getSignalName sigNum)
            (COS.getTimestampForLog env (env.clock (w.envReads + 3)))
            (COS.durationBuffer
              (elapsedMs (w.objects this).startTimePoint (env.clock (w.envReads + 2))))
          ++ ((COS.handleSignalCapture env this sigNum w).objects this).capturedOutput
          ++ COS.traceSection
            ((COS.handleSignalCapture env this sigNum w).objects this).stackTrace)] := by
  obtain ⟨-, -, -, b4, b5, -, -, -, b9, -, b11, b12, b13, b14, -, -⟩ :=
    handleSignalBanner_frame env this sigNum w
  obtain ⟨-, -, -, -, -, -, -, s8, s9, -⟩ :=
    saveLog_frame env this ("Crashed: " ++ COS.getSignalName sigNum)
      (COS.handleSignalBanner env this sigNum w)
  have h2 := (saveLog_of_unsaved env this ("Crashed: " ++ COS.getSignalName sigNum)
    (COS.handleSignalBanner env this sigNum w) (b9.trans hunsaved)).2.2.2
  rw [b11, if_pos hopen, b4, b5, b14] at h2
  unfold COS.handleSignalCapture
  rw [h2, s8, s9]
  simp only [COS.logFileText, b12, b13]

/-- C15: once `saveLog` has run on a session that remembered the real console as its
original destinations (a saved session being one already detached), every later write to
standard output or standard error reaches only the real console: `getLogContent()` stays
what it was, no object changes, and the console texts grow by exactly the characters
written. Hence, when `handleSignal` saves the log and invokes the callback, the
`CrashInfo.logContent` it delivers is exactly the captured text in the log file, and
whatever the callback prints afterwards leaves `getLogContent()` equal to it. -/
theorem writes_after_saveLog_bypass_capture (env : Env) (this : Nat) (r : String) (w : World)
    (ops : List WriteOp)
    (hcout : (w.objects this).originalCoutBuffer = .stdoutFile)
    (hcerr : (w.objects this).originalCerrBuffer = .stderrFile)
    (hdet : (w.objects this).logSaved = true →
      w.coutBuf = .stdoutFile ∧ w.cerrBuf = .stderrFile) :
    COS.getLogContent this (runWrites ops (COS.saveLog env this r w)) =
      COS.getLogContent this w ∧
    (runWrites ops (COS.saveLog env this r w)).objects = (COS.saveLog env this r w).objects ∧
    (runWrites ops (COS.saveLog env this r w)).stdoutText =
      w.stdoutText ++ String.join (ops.map (WriteOp.bytesOn .cout)) ∧
    (runWrites ops (COS.saveLog env this r w)).stderrText =
      w.stderrText ++ String.join (ops.map (WriteOp.bytesOn .cerr)) ∧
    (∀ (sigNum : Int) (f : Nat), w.globalInstance = some this →
      (w.objects this).crashCallback = some f → (w.objects this).logSaved = false →
      env.canOpen (COS.getLogPath this w) = true →
      ∃ (info : CrashInfo) (atCallback : World) (exitStamp duration : String),
        (∀ call : Callbacks, COS.signalHandler env call sigNum w = call f info atCallback) ∧
        atCallback.readFile (COS.getLogPath this w) =
          some (COS.logHeader (COS.getExecutableName this w) (COS.getStartTime this w)
            ("Crashed: " ++ COS.getSignalName sigNum) exitStamp duration
            ++ info.logContent ++ COS.traceSection info.stackTrace) ∧
        ∀ later : List WriteOp,
          COS.getLogContent this (runWrites later atCallback) = info.logContent) := by
  obtain ⟨hc, he⟩ := saveLog_detaches env this r w hcout hcerr hdet
  obtain ⟨k1, k2, k3⟩ := runWrites_on_console ops (COS.saveLog env this r w) hc he
  obtain ⟨-, -, -, -, -, f6, f7, f8, -⟩ := saveLog_frame env this r w
  refine ⟨?_, k1, ?_, ?_, ?_⟩
  · unfold COS.getLogContent
    rw [k1, f8]
  · rw [k2, f6]
  · rw [k3, f7]
  · intro sigNum f hg hcb hunsaved hopen
    unfold COS.getLogPath at hopen
    obtain ⟨-, -, -, -, -, -, -, -, b9, -, -, -, -, -, b15, b16⟩ :=
      handleSignalBanner_frame env this sigNum w
    have hB := saveLog_detaches env this ("Crashed: " ++ COS.getSignalName sigNum)
      (COS.handleSignalBanner env this sigNum w) (b15.trans hcout) (b16.trans hcerr)
      (fun h => absurd (h.symm.trans (b9.trans hunsaved)) (by simp))
    have hfile := handleSignalCapture_file_content env this sigNum w hunsaved hopen
    refine ⟨COS.crashInfo env this sigNum w.envReads (COS.handleSignalCapture env this sigNum w),
      (COS.handleSignalCapture env this sigNum w).tick,
      COS.getTimestampForLog env (env.clock (w.envReads + 3)),
      COS.durationBuffer (elapsedMs (w.objects this).startTimePoint (env.clock (w.envReads + 2))),
      fun call => (signalHandler_eq env call sigNum w this hg).1 f hcb,
      readFile_of_last _ _ _ _ hfile, ?_⟩
    intro later
    have hl := (runWrites_on_console later (COS.handleSignalCapture env this sigNum w).tick
      hB.1 hB.2).1
    unfold COS.getLogContent
    rw [hl]
    rfl

/-- C15 on the sample session: it remembered the real console and is unsaved; after
`saveLog` the sample writes leave `getLogContent()` at `COS: /tmp/demo_at0.log`, a
newline and `abcd`, and add `ab` to standard output and `cd` to standard error. -/
theorem writes_after_saveLog_bypass_capture_witness :
    (World.sample.objects 1).originalCoutBuffer = .stdoutFile ∧
    (World.sample.objects 1).originalCerrBuffer = .stderrFile ∧
    (World.sample.objects 1).logSaved = false ∧
    COS.getLogContent 1 (runWrites sampleWrites (COS.saveLog Env.sample 1 "Normal exit"
      World.sample)) = "COS: /tmp/demo_at0.log\nabcd" ∧
    (runWrites sampleWrites (COS.saveLog Env.sample 1 "Normal exit" World.sample)).stdoutText =
      World.sample.stdoutText ++ "ab" ∧
    (runWrites sampleWrites (COS.saveLog Env.sample 1 "Normal exit" World.sample)).stderrText =
      World.sample.stderrText ++ "cd" :=
  ⟨rfl, rfl, rfl,
    (writes_after_saveLog_bypass_capture Env.sample 1 "Normal exit" World.sample sampleWrites
      rfl rfl (fun h => Bool.noConfusion h)).1.trans rfl,
    (writes_after_saveLog_bypass_capture Env.sample 1 "Normal exit" World.sample sampleWrites
      rfl rfl (fun h => Bool.noConfusion h)).2.2.1.trans rfl,
    (writes_after_saveLog_bypass_capture Env.sample 1 "Normal exit" World.sample sampleWrites
      rfl rfl (fun h => Bool.noConfusion h)).2.2.2.1.trans rfl⟩

end Cos
